import Mathlib

/-! GPaste settings layer (`libgpaste/settings/gpaste-settings.c`).

A shallow embedding of the `GPasteSettings` object: the private cache of the
eighteen settings, the accessors generated by the `SETTING` macro, the handler
of the store's `changed` notification, construction and disposal.

Conventions of the embedding.

* `gboolean` is `Bool`; `guint32` is a `Nat`, reduced modulo `2 ^ 32` where a
  setter receives it as its parameter; `gchar *` is `Option CStr`, `none` being
  `NULL`, and a `CStr` lists the bytes that precede the terminating NUL.
* The `const gchar *` a text setter receives is a `CStrPtr`: it tells whether the
  pointer leads into the buffer the setter is about to free (the one cached for
  the same key, which the getter returns) and, if so, what the freed memory
  reads as.
* The `GSettings` object created by `g_settings_new ("org.gnome.GPaste")` is the
  single store object of the process; the pointer `priv->settings` is
  `Option Unit`, `none` being `NULL`.
* Signal emissions are appended to a log, each with the instance as the
  subscribers see it at the time of the emission.
* A store notification is a separate step (`g_paste_settings_settings_changed`):
  writing to the store does not run the handler by itself.
-/

namespace GPaste

/-! ## GLib values -/

/-- A C string, given by the bytes before its terminating NUL. -/
abbrev CStr := List Nat

/-- Continuation byte `10xxxxxx`. -/
def utf8_cont (b : Nat) : Bool := 0x80 ≤ b && b ≤ 0xBF

/-- GLib's `g_utf8_validate (str, -1, NULL)` on the bytes of `str`: every
character is a shortest-form UTF-8 encoding of a Unicode scalar value (no
surrogate, nothing above U+10FFFF). The empty string is valid. -/
def g_utf8_validate : CStr → Bool
  | [] => true
  | b0 :: rest =>
    if 1 ≤ b0 && b0 < 0x80 then g_utf8_validate rest
    else if 0xC2 ≤ b0 && b0 < 0xE0 then
      match rest with
      | b1 :: rest1 => utf8_cont b1 && g_utf8_validate rest1
      | _ => false
    else if 0xE0 ≤ b0 && b0 < 0xF0 then
      match rest with
      | b1 :: b2 :: rest2 =>
        (if b0 = 0xE0 then 0xA0 ≤ b1 && b1 ≤ 0xBF
         else if b0 = 0xED then 0x80 ≤ b1 && b1 ≤ 0x9F
         else utf8_cont b1)
        && utf8_cont b2 && g_utf8_validate rest2
      | _ => false
    else if 0xF0 ≤ b0 && b0 < 0xF5 then
      match rest with
      | b1 :: b2 :: b3 :: rest3 =>
        (if b0 = 0xF0 then 0x90 ≤ b1 && b1 ≤ 0xBF
         else if b0 = 0xF4 then 0x80 ≤ b1 && b1 ≤ 0x8F
         else utf8_cont b1)
        && utf8_cont b2 && utf8_cont b3 && g_utf8_validate rest3
      | _ => false
    else false

/-- GLib's `g_strdup`: a copy of the string, `NULL` for `NULL`. -/
@[simp]
def g_strdup (str : Option CStr) : Option CStr := str

/-- A `const gchar *` passed to a text setter. `null` is `NULL`; `other bytes` points
to a string in memory that the call does not free; `cached offset after_free`
points into the buffer held in `priv-><name>` for the key being set, `offset`
bytes from its start (`cached 0 _` is the pointer the getter of that key
returns): it reads as the cached string from that byte on until the setter frees
the buffer, and as `after_free` from then on (C leaves the content of freed
memory undefined, so `after_free` is arbitrary). -/
inductive CStrPtr where
  | null
  | other (bytes : CStr)
  | cached (offset : Nat) (after_free : CStr)
  deriving DecidableEq, Repr

/-- The string read through the pointer while the buffer `field` of the key is
still allocated. -/
@[simp]
def CStrPtr.read (value : CStrPtr) (field : Option CStr) : Option CStr :=
  match value with
  | .null => none
  | .other bytes => some bytes
  | .cached offset _ => field.map (List.drop offset)

/-- The string read through the pointer once `g_free` has released the buffer of
the key. -/
@[simp]
def CStrPtr.read_after_free (value : CStrPtr) : Option CStr :=
  match value with
  | .null => none
  | .other bytes => some bytes
  | .cached _ after_free => some after_free

/-- A `GQuark`: `none` is the quark `0`, `some s` the quark interned for `s`. -/
abbrev GQuark := Option String

/-- GLib's `g_quark_from_string` on a non-`NULL` string. -/
@[simp]
def g_quark_from_string (s : String) : GQuark := some s

/-- The value passed as the single parameter of an emission. -/
inductive GValue where
  | string (s : Option String)
  | boolean (b : Bool)
  deriving DecidableEq, Repr

/-! ## The store -/

/-- The store object of schema `org.gnome.GPaste`: the value of every key, by
the type the key is read and written with, and the handlers connected to its
`changed` signal. -/
structure GSettings where
  booleans : String → Bool
  uints : String → Nat
  strings : String → CStr
  handlers : List Nat
  disconnected : List Nat

/-- GLib's `g_settings_get_boolean`; on a `NULL` object the precondition check
fails and `FALSE` is returned. -/
@[simp]
def g_settings_get_boolean (dconf : GSettings) (settings : Option Unit) (key : String) : Bool :=
  match settings with
  | some _ => dconf.booleans key
  | none => false

/-- GLib's `g_settings_get_uint`; on a `NULL` object the precondition check
fails and `0` is returned. -/
@[simp]
def g_settings_get_uint (dconf : GSettings) (settings : Option Unit) (key : String) : Nat :=
  match settings with
  | some _ => dconf.uints key
  | none => 0

/-- GLib's `g_settings_get_string`: a newly allocated copy of the stored string;
on a `NULL` object the precondition check fails and `NULL` is returned. -/
@[simp]
def g_settings_get_string (dconf : GSettings) (settings : Option Unit) (key : String) :
    Option CStr :=
  match settings with
  | some _ => some (dconf.strings key)
  | none => none

/-- GLib's `g_settings_set_boolean`; nothing is written through a `NULL` object. -/
@[simp]
def g_settings_set_boolean (dconf : GSettings) (settings : Option Unit) (key : String)
    (value : Bool) : GSettings :=
  match settings with
  | some _ => { dconf with booleans := fun k => if k = key then value else dconf.booleans k }
  | none => dconf

/-- GLib's `g_settings_set_uint`; nothing is written through a `NULL` object. -/
@[simp]
def g_settings_set_uint (dconf : GSettings) (settings : Option Unit) (key : String)
    (value : Nat) : GSettings :=
  match settings with
  | some _ =>
    { dconf with uints := fun k => if k = key then value else dconf.uints k }
  | none => dconf

/-- GLib's `g_settings_set_string`; nothing is written through a `NULL` object,
from a `NULL` string, or from a string that is not valid UTF-8 (which
`g_variant_new_string` refuses). -/
@[simp]
def g_settings_set_string (dconf : GSettings) (settings : Option Unit) (key : String)
    (value : Option CStr) : GSettings :=
  match settings, value with
  | some _, some v =>
    if g_utf8_validate v = false then dconf
    else { dconf with strings := fun k => if k = key then v else dconf.strings k }
  | _, _ => dconf

/-! ## The object -/

/-- Private data of the object (`struct _GPasteSettingsPrivate`). -/
structure GPasteSettingsPrivate where
  settings : Option Unit
  element_size : Nat
  history_name : Option CStr
  images_support : Bool
  max_displayed_history_size : Nat
  max_history_size : Nat
  max_memory_usage : Nat
  max_text_item_size : Nat
  min_text_item_size : Nat
  pop : Option CStr
  primary_to_history : Bool
  save_history : Bool
  show_history : Option CStr
  sync_clipboard_to_primary : Option CStr
  sync_primary_to_clipboard : Option CStr
  synchronize_clipboards : Bool
  track_changes : Bool
  track_extension_state : Bool
  trim_items : Bool
  changed_signal : Nat
  deriving DecidableEq, Repr

/-- An instance of `GPasteSettings`. -/
structure GPasteSettings where
  priv : GPasteSettingsPrivate
  deriving DecidableEq, Repr

/-- Accessor `g_paste_settings_get_instance_private` generated by
`G_DEFINE_TYPE_WITH_PRIVATE`. -/
@[simp]
def g_paste_settings_get_instance_private (self : GPasteSettings) : GPasteSettingsPrivate :=
  self.priv

/-- The signals of the class, in the order of the `enum`. -/
inductive Signal where
  | CHANGED
  | REBIND
  | TRACK
  deriving DecidableEq, Repr

/-- One call of `g_signal_emit`: the signal, the detail, the parameter, and the
emitting instance as its subscribers find it during the emission. -/
structure Emission where
  signal_id : Signal
  detail : GQuark
  param : GValue
  sender : GPasteSettings
  deriving DecidableEq, Repr

/-- The state the functions of the file act on: the store, the instance and the
emissions made so far. -/
structure World where
  dconf : GSettings
  self : GPasteSettings
  emitted : List Emission

/-- GLib's `g_signal_emit (self, signal_id, detail, param, NULL)`. -/
@[simp]
def g_signal_emit (w : World) (signal_id : Signal) (detail : GQuark) (param : GValue) : World :=
  { w with emitted := w.emitted ++ [⟨signal_id, detail, param, w.self⟩] }

/-! ## Key names -/

/-- Modelled from the spec: the key name behind `G_PASTE_ELEMENT_SIZE_SETTING`, whose header is
not among the sources; the name is the one the accessor documentation quotes. -/
@[simp]
abbrev G_PASTE_ELEMENT_SIZE_SETTING : String := "element-size"

/-- Modelled from the spec: the key name behind `G_PASTE_HISTORY_NAME_SETTING`, whose header is
not among the sources; the name is the one the accessor documentation quotes. -/
@[simp]
abbrev G_PASTE_HISTORY_NAME_SETTING : String := "history-name"

/-- Modelled from the spec: the key name behind `G_PASTE_IMAGES_SUPPORT_SETTING`, whose header is
not among the sources; the name is the one the accessor documentation quotes. -/
@[simp]
abbrev G_PASTE_IMAGES_SUPPORT_SETTING : String := "images-support"

/-- Modelled from the spec: the key name behind `G_PASTE_MAX_DISPLAYED_HISTORY_SIZE_SETTING`, whose header is
not among the sources; the name is the one the accessor documentation quotes. -/
@[simp]
abbrev G_PASTE_MAX_DISPLAYED_HISTORY_SIZE_SETTING : String := "max-displayed-history-size"

/-- Modelled from the spec: the key name behind `G_PASTE_MAX_HISTORY_SIZE_SETTING`, whose header is
not among the sources; the name is the one the accessor documentation quotes. -/
@[simp]
abbrev G_PASTE_MAX_HISTORY_SIZE_SETTING : String := "max-history-size"

/-- Modelled from the spec: the key name behind `G_PASTE_MAX_MEMORY_USAGE_SETTING`, whose header is
not among the sources; the name is the one the accessor documentation quotes. -/
@[simp]
abbrev G_PASTE_MAX_MEMORY_USAGE_SETTING : String := "max-memory-usage"

/-- Modelled from the spec: the key name behind `G_PASTE_MAX_TEXT_ITEM_SIZE_SETTING`, whose header is
not among the sources; the name is the one the accessor documentation quotes. -/
@[simp]
abbrev G_PASTE_MAX_TEXT_ITEM_SIZE_SETTING : String := "max-text-item-size"

/-- Modelled from the spec: the key name behind `G_PASTE_MIN_TEXT_ITEM_SIZE_SETTING`, whose header is
not among the sources; the name is the one the accessor documentation quotes. -/
@[simp]
abbrev G_PASTE_MIN_TEXT_ITEM_SIZE_SETTING : String := "min-text-item-size"

/-- Modelled from the spec: the key name behind `G_PASTE_POP_SETTING`, whose header is
not among the sources; the name is the one the accessor documentation quotes. -/
@[simp]
abbrev G_PASTE_POP_SETTING : String := "pop"

/-- Modelled from the spec: the key name behind `G_PASTE_PRIMARY_TO_HISTORY_SETTING`, whose header is
not among the sources; the name is the one the accessor documentation quotes. -/
@[simp]
abbrev G_PASTE_PRIMARY_TO_HISTORY_SETTING : String := "primary-to-history"

/-- Modelled from the spec: the key name behind `G_PASTE_SAVE_HISTORY_SETTING`, whose header is
not among the sources; the name is the one the accessor documentation quotes. -/
@[simp]
abbrev G_PASTE_SAVE_HISTORY_SETTING : String := "save-history"

/-- Modelled from the spec: the key name behind `G_PASTE_SHOW_HISTORY_SETTING`, whose header is
not among the sources; the name is the one the accessor documentation quotes. -/
@[simp]
abbrev G_PASTE_SHOW_HISTORY_SETTING : String := "show-history"

/-- Modelled from the spec: the key name behind `G_PASTE_SYNC_CLIPBOARD_TO_PRIMARY_SETTING`, whose header is
not among the sources; the name is the one the accessor documentation quotes. -/
@[simp]
abbrev G_PASTE_SYNC_CLIPBOARD_TO_PRIMARY_SETTING : String := "sync-clipboard-to-primary"

/-- Modelled from the spec: the key name behind `G_PASTE_SYNC_PRIMARY_TO_CLIPBOARD_SETTING`, whose header is
not among the sources; the name is the one the accessor documentation quotes. -/
@[simp]
abbrev G_PASTE_SYNC_PRIMARY_TO_CLIPBOARD_SETTING : String := "sync-primary-to-clipboard"

/-- Modelled from the spec: the key name behind `G_PASTE_SYNCHRONIZE_CLIPBOARDS_SETTING`, whose header is
not among the sources; the name is the one the accessor documentation quotes. -/
@[simp]
abbrev G_PASTE_SYNCHRONIZE_CLIPBOARDS_SETTING : String := "synchronize-clipboards"

/-- Modelled from the spec: the key name behind `G_PASTE_TRACK_CHANGES_SETTING`, whose header is
not among the sources; the name is the one the accessor documentation quotes. -/
@[simp]
abbrev G_PASTE_TRACK_CHANGES_SETTING : String := "track-changes"

/-- Modelled from the spec: the key name behind `G_PASTE_TRACK_EXTENSION_STATE_SETTING`, whose header is
not among the sources; the name is the one the accessor documentation quotes. -/
@[simp]
abbrev G_PASTE_TRACK_EXTENSION_STATE_SETTING : String := "track-extension-state"

/-- Modelled from the spec: the key name behind `G_PASTE_TRIM_ITEMS_SETTING`, whose header is
not among the sources; the name is the one the accessor documentation quotes. -/
@[simp]
abbrev G_PASTE_TRIM_ITEMS_SETTING : String := "trim-items"

/-! ## The accessors generated by `SETTING` -/

/-- Getter of `UNSIGNED_SETTING (element_size, ELEMENT_SIZE)`: returns `priv->element_size`. -/
@[simp]
def g_paste_settings_get_element_size (self : GPasteSettings) : Nat :=
  let priv := g_paste_settings_get_instance_private self
  priv.element_size

/-- Reader of `UNSIGNED_SETTING (element_size, ELEMENT_SIZE)`: `priv->element_size` is read again from the store. -/
@[simp]
def g_paste_settings_private_set_element_size_from_dconf (dconf : GSettings)
    (priv : GPasteSettingsPrivate) : GPasteSettingsPrivate :=
  { priv with element_size := g_settings_get_uint dconf priv.settings G_PASTE_ELEMENT_SIZE_SETTING }

/-- Setter of `UNSIGNED_SETTING (element_size, ELEMENT_SIZE)`: caches the value, received as a
`guint32`, and writes it to the store. -/
@[simp]
def g_paste_settings_set_element_size (w : World) (value : Nat) : World :=
  let value := value % 2 ^ 32
  let priv := g_paste_settings_get_instance_private w.self
  let priv := { priv with element_size := value }
  { w with
    self := ⟨priv⟩
    dconf := g_settings_set_uint w.dconf priv.settings G_PASTE_ELEMENT_SIZE_SETTING value }

/-- Getter of `STRING_SETTING (history_name, HISTORY_NAME)`: returns `priv->history_name`. -/
@[simp]
def g_paste_settings_get_history_name (self : GPasteSettings) : Option CStr :=
  let priv := g_paste_settings_get_instance_private self
  priv.history_name

/-- Reader of `STRING_SETTING (history_name, HISTORY_NAME)`: `priv->history_name` is read again from the store. -/
@[simp]
def g_paste_settings_private_set_history_name_from_dconf (dconf : GSettings)
    (priv : GPasteSettingsPrivate) : GPasteSettingsPrivate :=
  { priv with history_name := g_settings_get_string dconf priv.settings G_PASTE_HISTORY_NAME_SETTING }

/-- Setter of `STRING_SETTING (history_name, HISTORY_NAME)`: returns at once on a `NULL` value or on
one that `g_utf8_validate` refuses; otherwise frees the old string, and only
then caches a copy of what `value` points to and writes that to the store. When
`value` points into the buffer of `priv->history_name`, both reads come after the free. -/
@[simp]
def g_paste_settings_set_history_name (w : World) (value : CStrPtr) : World :=
  let priv := g_paste_settings_get_instance_private w.self
  match value.read priv.history_name with
  | none => w
  | some str =>
    if g_utf8_validate str = false then w
    else
      let freed := value.read_after_free
      let priv := { priv with history_name := g_strdup freed }
      { w with
        self := ⟨priv⟩
        dconf := g_settings_set_string w.dconf priv.settings G_PASTE_HISTORY_NAME_SETTING freed }

/-- Getter of `BOOLEAN_SETTING (images_support, IMAGES_SUPPORT)`: returns `priv->images_support`. -/
@[simp]
def g_paste_settings_get_images_support (self : GPasteSettings) : Bool :=
  let priv := g_paste_settings_get_instance_private self
  priv.images_support

/-- Reader of `BOOLEAN_SETTING (images_support, IMAGES_SUPPORT)`: `priv->images_support` is read again from the store. -/
@[simp]
def g_paste_settings_private_set_images_support_from_dconf (dconf : GSettings)
    (priv : GPasteSettingsPrivate) : GPasteSettingsPrivate :=
  { priv with images_support := g_settings_get_boolean dconf priv.settings G_PASTE_IMAGES_SUPPORT_SETTING }

/-- Setter of `BOOLEAN_SETTING (images_support, IMAGES_SUPPORT)`: caches the value and writes it to the
store. -/
@[simp]
def g_paste_settings_set_images_support (w : World) (value : Bool) : World :=
  let priv := g_paste_settings_get_instance_private w.self
  let priv := { priv with images_support := value }
  { w with
    self := ⟨priv⟩
    dconf := g_settings_set_boolean w.dconf priv.settings G_PASTE_IMAGES_SUPPORT_SETTING value }

/-- Getter of `UNSIGNED_SETTING (max_displayed_history_size, MAX_DISPLAYED_HISTORY_SIZE)`: returns `priv->max_displayed_history_size`. -/
@[simp]
def g_paste_settings_get_max_displayed_history_size (self : GPasteSettings) : Nat :=
  let priv := g_paste_settings_get_instance_private self
  priv.max_displayed_history_size

/-- Reader of `UNSIGNED_SETTING (max_displayed_history_size, MAX_DISPLAYED_HISTORY_SIZE)`: `priv->max_displayed_history_size` is read again from the store. -/
@[simp]
def g_paste_settings_private_set_max_displayed_history_size_from_dconf (dconf : GSettings)
    (priv : GPasteSettingsPrivate) : GPasteSettingsPrivate :=
  { priv with max_displayed_history_size := g_settings_get_uint dconf priv.settings G_PASTE_MAX_DISPLAYED_HISTORY_SIZE_SETTING }

/-- Setter of `UNSIGNED_SETTING (max_displayed_history_size, MAX_DISPLAYED_HISTORY_SIZE)`: caches the value, received as a
`guint32`, and writes it to the store. -/
@[simp]
def g_paste_settings_set_max_displayed_history_size (w : World) (value : Nat) : World :=
  let value := value % 2 ^ 32
  let priv := g_paste_settings_get_instance_private w.self
  let priv := { priv with max_displayed_history_size := value }
  { w with
    self := ⟨priv⟩
    dconf := g_settings_set_uint w.dconf priv.settings G_PASTE_MAX_DISPLAYED_HISTORY_SIZE_SETTING value }

/-- Getter of `UNSIGNED_SETTING (max_history_size, MAX_HISTORY_SIZE)`: returns `priv->max_history_size`. -/
@[simp]
def g_paste_settings_get_max_history_size (self : GPasteSettings) : Nat :=
  let priv := g_paste_settings_get_instance_private self
  priv.max_history_size

/-- Reader of `UNSIGNED_SETTING (max_history_size, MAX_HISTORY_SIZE)`: `priv->max_history_size` is read again from the store. -/
@[simp]
def g_paste_settings_private_set_max_history_size_from_dconf (dconf : GSettings)
    (priv : GPasteSettingsPrivate) : GPasteSettingsPrivate :=
  { priv with max_history_size := g_settings_get_uint dconf priv.settings G_PASTE_MAX_HISTORY_SIZE_SETTING }

/-- Setter of `UNSIGNED_SETTING (max_history_size, MAX_HISTORY_SIZE)`: caches the value, received as a
`guint32`, and writes it to the store. -/
@[simp]
def g_paste_settings_set_max_history_size (w : World) (value : Nat) : World :=
  let value := value % 2 ^ 32
  let priv := g_paste_settings_get_instance_private w.self
  let priv := { priv with max_history_size := value }
  { w with
    self := ⟨priv⟩
    dconf := g_settings_set_uint w.dconf priv.settings G_PASTE_MAX_HISTORY_SIZE_SETTING value }

/-- Getter of `UNSIGNED_SETTING (max_memory_usage, MAX_MEMORY_USAGE)`: returns `priv->max_memory_usage`. -/
@[simp]
def g_paste_settings_get_max_memory_usage (self : GPasteSettings) : Nat :=
  let priv := g_paste_settings_get_instance_private self
  priv.max_memory_usage

/-- Reader of `UNSIGNED_SETTING (max_memory_usage, MAX_MEMORY_USAGE)`: `priv->max_memory_usage` is read again from the store. -/
@[simp]
def g_paste_settings_private_set_max_memory_usage_from_dconf (dconf : GSettings)
    (priv : GPasteSettingsPrivate) : GPasteSettingsPrivate :=
  { priv with max_memory_usage := g_settings_get_uint dconf priv.settings G_PASTE_MAX_MEMORY_USAGE_SETTING }

/-- Setter of `UNSIGNED_SETTING (max_memory_usage, MAX_MEMORY_USAGE)`: caches the value, received as a
`guint32`, and writes it to the store. -/
@[simp]
def g_paste_settings_set_max_memory_usage (w : World) (value : Nat) : World :=
  let value := value % 2 ^ 32
  let priv := g_paste_settings_get_instance_private w.self
  let priv := { priv with max_memory_usage := value }
  { w with
    self := ⟨priv⟩
    dconf := g_settings_set_uint w.dconf priv.settings G_PASTE_MAX_MEMORY_USAGE_SETTING value }

/-- Getter of `UNSIGNED_SETTING (max_text_item_size, MAX_TEXT_ITEM_SIZE)`: returns `priv->max_text_item_size`. -/
@[simp]
def g_paste_settings_get_max_text_item_size (self : GPasteSettings) : Nat :=
  let priv := g_paste_settings_get_instance_private self
  priv.max_text_item_size

/-- Reader of `UNSIGNED_SETTING (max_text_item_size, MAX_TEXT_ITEM_SIZE)`: `priv->max_text_item_size` is read again from the store. -/
@[simp]
def g_paste_settings_private_set_max_text_item_size_from_dconf (dconf : GSettings)
    (priv : GPasteSettingsPrivate) : GPasteSettingsPrivate :=
  { priv with max_text_item_size := g_settings_get_uint dconf priv.settings G_PASTE_MAX_TEXT_ITEM_SIZE_SETTING }

/-- Setter of `UNSIGNED_SETTING (max_text_item_size, MAX_TEXT_ITEM_SIZE)`: caches the value, received as a
`guint32`, and writes it to the store. -/
@[simp]
def g_paste_settings_set_max_text_item_size (w : World) (value : Nat) : World :=
  let value := value % 2 ^ 32
  let priv := g_paste_settings_get_instance_private w.self
  let priv := { priv with max_text_item_size := value }
  { w with
    self := ⟨priv⟩
    dconf := g_settings_set_uint w.dconf priv.settings G_PASTE_MAX_TEXT_ITEM_SIZE_SETTING value }

/-- Getter of `UNSIGNED_SETTING (min_text_item_size, MIN_TEXT_ITEM_SIZE)`: returns `priv->min_text_item_size`. -/
@[simp]
def g_paste_settings_get_min_text_item_size (self : GPasteSettings) : Nat :=
  let priv := g_paste_settings_get_instance_private self
  priv.min_text_item_size

/-- Reader of `UNSIGNED_SETTING (min_text_item_size, MIN_TEXT_ITEM_SIZE)`: `priv->min_text_item_size` is read again from the store. -/
@[simp]
def g_paste_settings_private_set_min_text_item_size_from_dconf (dconf : GSettings)
    (priv : GPasteSettingsPrivate) : GPasteSettingsPrivate :=
  { priv with min_text_item_size := g_settings_get_uint dconf priv.settings G_PASTE_MIN_TEXT_ITEM_SIZE_SETTING }

/-- Setter of `UNSIGNED_SETTING (min_text_item_size, MIN_TEXT_ITEM_SIZE)`: caches the value, received as a
`guint32`, and writes it to the store. -/
@[simp]
def g_paste_settings_set_min_text_item_size (w : World) (value : Nat) : World :=
  let value := value % 2 ^ 32
  let priv := g_paste_settings_get_instance_private w.self
  let priv := { priv with min_text_item_size := value }
  { w with
    self := ⟨priv⟩
    dconf := g_settings_set_uint w.dconf priv.settings G_PASTE_MIN_TEXT_ITEM_SIZE_SETTING value }

/-- Getter of `STRING_SETTING (pop, POP)`: returns `priv->pop`. -/
@[simp]
def g_paste_settings_get_pop (self : GPasteSettings) : Option CStr :=
  let priv := g_paste_settings_get_instance_private self
  priv.pop

/-- Reader of `STRING_SETTING (pop, POP)`: `priv->pop` is read again from the store. -/
@[simp]
def g_paste_settings_private_set_pop_from_dconf (dconf : GSettings)
    (priv : GPasteSettingsPrivate) : GPasteSettingsPrivate :=
  { priv with pop := g_settings_get_string dconf priv.settings G_PASTE_POP_SETTING }

/-- Setter of `STRING_SETTING (pop, POP)`: returns at once on a `NULL` value or on
one that `g_utf8_validate` refuses; otherwise frees the old string, and only
then caches a copy of what `value` points to and writes that to the store. When
`value` points into the buffer of `priv->pop`, both reads come after the free. -/
@[simp]
def g_paste_settings_set_pop (w : World) (value : CStrPtr) : World :=
  let priv := g_paste_settings_get_instance_private w.self
  match value.read priv.pop with
  | none => w
  | some str =>
    if g_utf8_validate str = false then w
    else
      let freed := value.read_after_free
      let priv := { priv with pop := g_strdup freed }
      { w with
        self := ⟨priv⟩
        dconf := g_settings_set_string w.dconf priv.settings G_PASTE_POP_SETTING freed }

/-- Getter of `BOOLEAN_SETTING (primary_to_history, PRIMARY_TO_HISTORY)`: returns `priv->primary_to_history`. -/
@[simp]
def g_paste_settings_get_primary_to_history (self : GPasteSettings) : Bool :=
  let priv := g_paste_settings_get_instance_private self
  priv.primary_to_history

/-- Reader of `BOOLEAN_SETTING (primary_to_history, PRIMARY_TO_HISTORY)`: `priv->primary_to_history` is read again from the store. -/
@[simp]
def g_paste_settings_private_set_primary_to_history_from_dconf (dconf : GSettings)
    (priv : GPasteSettingsPrivate) : GPasteSettingsPrivate :=
  { priv with primary_to_history := g_settings_get_boolean dconf priv.settings G_PASTE_PRIMARY_TO_HISTORY_SETTING }

/-- Setter of `BOOLEAN_SETTING (primary_to_history, PRIMARY_TO_HISTORY)`: caches the value and writes it to the
store. -/
@[simp]
def g_paste_settings_set_primary_to_history (w : World) (value : Bool) : World :=
  let priv := g_paste_settings_get_instance_private w.self
  let priv := { priv with primary_to_history := value }
  { w with
    self := ⟨priv⟩
    dconf := g_settings_set_boolean w.dconf priv.settings G_PASTE_PRIMARY_TO_HISTORY_SETTING value }

/-- Getter of `BOOLEAN_SETTING (save_history, SAVE_HISTORY)`: returns `priv->save_history`. -/
@[simp]
def g_paste_settings_get_save_history (self : GPasteSettings) : Bool :=
  let priv := g_paste_settings_get_instance_private self
  priv.save_history

/-- Reader of `BOOLEAN_SETTING (save_history, SAVE_HISTORY)`: `priv->save_history` is read again from the store. -/
@[simp]
def g_paste_settings_private_set_save_history_from_dconf (dconf : GSettings)
    (priv : GPasteSettingsPrivate) : GPasteSettingsPrivate :=
  { priv with save_history := g_settings_get_boolean dconf priv.settings G_PASTE_SAVE_HISTORY_SETTING }

/-- Setter of `BOOLEAN_SETTING (save_history, SAVE_HISTORY)`: caches the value and writes it to the
store. -/
@[simp]
def g_paste_settings_set_save_history (w : World) (value : Bool) : World :=
  let priv := g_paste_settings_get_instance_private w.self
  let priv := { priv with save_history := value }
  { w with
    self := ⟨priv⟩
    dconf := g_settings_set_boolean w.dconf priv.settings G_PASTE_SAVE_HISTORY_SETTING value }

/-- Getter of `STRING_SETTING (show_history, SHOW_HISTORY)`: returns `priv->show_history`. -/
@[simp]
def g_paste_settings_get_show_history (self : GPasteSettings) : Option CStr :=
  let priv := g_paste_settings_get_instance_private self
  priv.show_history

/-- Reader of `STRING_SETTING (show_history, SHOW_HISTORY)`: `priv->show_history` is read again from the store. -/
@[simp]
def g_paste_settings_private_set_show_history_from_dconf (dconf : GSettings)
    (priv : GPasteSettingsPrivate) : GPasteSettingsPrivate :=
  { priv with show_history := g_settings_get_string dconf priv.settings G_PASTE_SHOW_HISTORY_SETTING }

/-- Setter of `STRING_SETTING (show_history, SHOW_HISTORY)`: returns at once on a `NULL` value or on
one that `g_utf8_validate` refuses; otherwise frees the old string, and only
then caches a copy of what `value` points to and writes that to the store. When
`value` points into the buffer of `priv->show_history`, both reads come after the free. -/
@[simp]
def g_paste_settings_set_show_history (w : World) (value : CStrPtr) : World :=
  let priv := g_paste_settings_get_instance_private w.self
  match value.read priv.show_history with
  | none => w
  | some str =>
    if g_utf8_validate str = false then w
    else
      let freed := value.read_after_free
      let priv := { priv with show_history := g_strdup freed }
      { w with
        self := ⟨priv⟩
        dconf := g_settings_set_string w.dconf priv.settings G_PASTE_SHOW_HISTORY_SETTING freed }

/-- Getter of `STRING_SETTING (sync_clipboard_to_primary, SYNC_CLIPBOARD_TO_PRIMARY)`: returns `priv->sync_clipboard_to_primary`. -/
@[simp]
def g_paste_settings_get_sync_clipboard_to_primary (self : GPasteSettings) : Option CStr :=
  let priv := g_paste_settings_get_instance_private self
  priv.sync_clipboard_to_primary

/-- Reader of `STRING_SETTING (sync_clipboard_to_primary, SYNC_CLIPBOARD_TO_PRIMARY)`: `priv->sync_clipboard_to_primary` is read again from the store. -/
@[simp]
def g_paste_settings_private_set_sync_clipboard_to_primary_from_dconf (dconf : GSettings)
    (priv : GPasteSettingsPrivate) : GPasteSettingsPrivate :=
  { priv with sync_clipboard_to_primary := g_settings_get_string dconf priv.settings G_PASTE_SYNC_CLIPBOARD_TO_PRIMARY_SETTING }

/-- Setter of `STRING_SETTING (sync_clipboard_to_primary, SYNC_CLIPBOARD_TO_PRIMARY)`: returns at once on a `NULL` value or on
one that `g_utf8_validate` refuses; otherwise frees the old string, and only
then caches a copy of what `value` points to and writes that to the store. When
`value` points into the buffer of `priv->sync_clipboard_to_primary`, both reads come after the free. -/
@[simp]
def g_paste_settings_set_sync_clipboard_to_primary (w : World) (value : CStrPtr) : World :=
  let priv := g_paste_settings_get_instance_private w.self
  match value.read priv.sync_clipboard_to_primary with
  | none => w
  | some str =>
    if g_utf8_validate str = false then w
    else
      let freed := value.read_after_free
      let priv := { priv with sync_clipboard_to_primary := g_strdup freed }
      { w with
        self := ⟨priv⟩
        dconf := g_settings_set_string w.dconf priv.settings G_PASTE_SYNC_CLIPBOARD_TO_PRIMARY_SETTING freed }

/-- Getter of `STRING_SETTING (sync_primary_to_clipboard, SYNC_PRIMARY_TO_CLIPBOARD)`: returns `priv->sync_primary_to_clipboard`. -/
@[simp]
def g_paste_settings_get_sync_primary_to_clipboard (self : GPasteSettings) : Option CStr :=
  let priv := g_paste_settings_get_instance_private self
  priv.sync_primary_to_clipboard

/-- Reader of `STRING_SETTING (sync_primary_to_clipboard, SYNC_PRIMARY_TO_CLIPBOARD)`: `priv->sync_primary_to_clipboard` is read again from the store. -/
@[simp]
def g_paste_settings_private_set_sync_primary_to_clipboard_from_dconf (dconf : GSettings)
    (priv : GPasteSettingsPrivate) : GPasteSettingsPrivate :=
  { priv with sync_primary_to_clipboard := g_settings_get_string dconf priv.settings G_PASTE_SYNC_PRIMARY_TO_CLIPBOARD_SETTING }

/-- Setter of `STRING_SETTING (sync_primary_to_clipboard, SYNC_PRIMARY_TO_CLIPBOARD)`: returns at once on a `NULL` value or on
one that `g_utf8_validate` refuses; otherwise frees the old string, and only
then caches a copy of what `value` points to and writes that to the store. When
`value` points into the buffer of `priv->sync_primary_to_clipboard`, both reads come after the free. -/
@[simp]
def g_paste_settings_set_sync_primary_to_clipboard (w : World) (value : CStrPtr) : World :=
  let priv := g_paste_settings_get_instance_private w.self
  match value.read priv.sync_primary_to_clipboard with
  | none => w
  | some str =>
    if g_utf8_validate str = false then w
    else
      let freed := value.read_after_free
      let priv := { priv with sync_primary_to_clipboard := g_strdup freed }
      { w with
        self := ⟨priv⟩
        dconf := g_settings_set_string w.dconf priv.settings G_PASTE_SYNC_PRIMARY_TO_CLIPBOARD_SETTING freed }

/-- Getter of `BOOLEAN_SETTING (synchronize_clipboards, SYNCHRONIZE_CLIPBOARDS)`: returns `priv->synchronize_clipboards`. -/
@[simp]
def g_paste_settings_get_synchronize_clipboards (self : GPasteSettings) : Bool :=
  let priv := g_paste_settings_get_instance_private self
  priv.synchronize_clipboards

/-- Reader of `BOOLEAN_SETTING (synchronize_clipboards, SYNCHRONIZE_CLIPBOARDS)`: `priv->synchronize_clipboards` is read again from the store. -/
@[simp]
def g_paste_settings_private_set_synchronize_clipboards_from_dconf (dconf : GSettings)
    (priv : GPasteSettingsPrivate) : GPasteSettingsPrivate :=
  { priv with synchronize_clipboards := g_settings_get_boolean dconf priv.settings G_PASTE_SYNCHRONIZE_CLIPBOARDS_SETTING }

/-- Setter of `BOOLEAN_SETTING (synchronize_clipboards, SYNCHRONIZE_CLIPBOARDS)`: caches the value and writes it to the
store. -/
@[simp]
def g_paste_settings_set_synchronize_clipboards (w : World) (value : Bool) : World :=
  let priv := g_paste_settings_get_instance_private w.self
  let priv := { priv with synchronize_clipboards := value }
  { w with
    self := ⟨priv⟩
    dconf := g_settings_set_boolean w.dconf priv.settings G_PASTE_SYNCHRONIZE_CLIPBOARDS_SETTING value }

/-- Getter of `BOOLEAN_SETTING (track_changes, TRACK_CHANGES)`: returns `priv->track_changes`. -/
@[simp]
def g_paste_settings_get_track_changes (self : GPasteSettings) : Bool :=
  let priv := g_paste_settings_get_instance_private self
  priv.track_changes

/-- Reader of `BOOLEAN_SETTING (track_changes, TRACK_CHANGES)`: `priv->track_changes` is read again from the store. -/
@[simp]
def g_paste_settings_private_set_track_changes_from_dconf (dconf : GSettings)
    (priv : GPasteSettingsPrivate) : GPasteSettingsPrivate :=
  { priv with track_changes := g_settings_get_boolean dconf priv.settings G_PASTE_TRACK_CHANGES_SETTING }

/-- Setter of `BOOLEAN_SETTING (track_changes, TRACK_CHANGES)`: caches the value and writes it to the
store. -/
@[simp]
def g_paste_settings_set_track_changes (w : World) (value : Bool) : World :=
  let priv := g_paste_settings_get_instance_private w.self
  let priv := { priv with track_changes := value }
  { w with
    self := ⟨priv⟩
    dconf := g_settings_set_boolean w.dconf priv.settings G_PASTE_TRACK_CHANGES_SETTING value }

/-- Getter of `BOOLEAN_SETTING (track_extension_state, TRACK_EXTENSION_STATE)`: returns `priv->track_extension_state`. -/
@[simp]
def g_paste_settings_get_track_extension_state (self : GPasteSettings) : Bool :=
  let priv := g_paste_settings_get_instance_private self
  priv.track_extension_state

/-- Reader of `BOOLEAN_SETTING (track_extension_state, TRACK_EXTENSION_STATE)`: `priv->track_extension_state` is read again from the store. -/
@[simp]
def g_paste_settings_private_set_track_extension_state_from_dconf (dconf : GSettings)
    (priv : GPasteSettingsPrivate) : GPasteSettingsPrivate :=
  { priv with track_extension_state := g_settings_get_boolean dconf priv.settings G_PASTE_TRACK_EXTENSION_STATE_SETTING }

/-- Setter of `BOOLEAN_SETTING (track_extension_state, TRACK_EXTENSION_STATE)`: caches the value and writes it to the
store. -/
@[simp]
def g_paste_settings_set_track_extension_state (w : World) (value : Bool) : World :=
  let priv := g_paste_settings_get_instance_private w.self
  let priv := { priv with track_extension_state := value }
  { w with
    self := ⟨priv⟩
    dconf := g_settings_set_boolean w.dconf priv.settings G_PASTE_TRACK_EXTENSION_STATE_SETTING value }

/-- Getter of `BOOLEAN_SETTING (trim_items, TRIM_ITEMS)`: returns `priv->trim_items`. -/
@[simp]
def g_paste_settings_get_trim_items (self : GPasteSettings) : Bool :=
  let priv := g_paste_settings_get_instance_private self
  priv.trim_items

/-- Reader of `BOOLEAN_SETTING (trim_items, TRIM_ITEMS)`: `priv->trim_items` is read again from the store. -/
@[simp]
def g_paste_settings_private_set_trim_items_from_dconf (dconf : GSettings)
    (priv : GPasteSettingsPrivate) : GPasteSettingsPrivate :=
  { priv with trim_items := g_settings_get_boolean dconf priv.settings G_PASTE_TRIM_ITEMS_SETTING }

/-- Setter of `BOOLEAN_SETTING (trim_items, TRIM_ITEMS)`: caches the value and writes it to the
store. -/
@[simp]
def g_paste_settings_set_trim_items (w : World) (value : Bool) : World :=
  let priv := g_paste_settings_get_instance_private w.self
  let priv := { priv with trim_items := value }
  { w with
    self := ⟨priv⟩
    dconf := g_settings_set_boolean w.dconf priv.settings G_PASTE_TRIM_ITEMS_SETTING value }

/-! ## The notification handler -/

/-- Emission of `rebind` with the key as detail and a `NULL` parameter
(`g_paste_settings_rebind`). -/
@[simp]
def g_paste_settings_rebind (w : World) (key : String) : World :=
  g_signal_emit w Signal.REBIND (g_quark_from_string key) (GValue.string none)

/-- Handler of the store's `changed` signal (`g_paste_settings_settings_changed`):
the chain of `g_strcmp0` tests re-reads the notified key, the four shortcut
keys emit `rebind`, `track-changes` emits `track`, and in every case the signal
is then forwarded as `changed`. -/
def g_paste_settings_settings_changed (w : World) (key : String) : World :=
  let priv := g_paste_settings_get_instance_private w.self
  let w : World :=
    if key = G_PASTE_ELEMENT_SIZE_SETTING then
      { w with self := ⟨g_paste_settings_private_set_element_size_from_dconf w.dconf priv⟩ }
    else if key = G_PASTE_HISTORY_NAME_SETTING then
      { w with self := ⟨g_paste_settings_private_set_history_name_from_dconf w.dconf priv⟩ }
    else if key = G_PASTE_IMAGES_SUPPORT_SETTING then
      { w with self := ⟨g_paste_settings_private_set_images_support_from_dconf w.dconf priv⟩ }
    else if key = G_PASTE_MAX_DISPLAYED_HISTORY_SIZE_SETTING then
      { w with self := ⟨g_paste_settings_private_set_max_displayed_history_size_from_dconf w.dconf priv⟩ }
    else if key = G_PASTE_MAX_HISTORY_SIZE_SETTING then
      { w with self := ⟨g_paste_settings_private_set_max_history_size_from_dconf w.dconf priv⟩ }
    else if key = G_PASTE_MAX_MEMORY_USAGE_SETTING then
      { w with self := ⟨g_paste_settings_private_set_max_memory_usage_from_dconf w.dconf priv⟩ }
    else if key = G_PASTE_MAX_TEXT_ITEM_SIZE_SETTING then
      { w with self := ⟨g_paste_settings_private_set_max_text_item_size_from_dconf w.dconf priv⟩ }
    else if key = G_PASTE_MIN_TEXT_ITEM_SIZE_SETTING then
      { w with self := ⟨g_paste_settings_private_set_min_text_item_size_from_dconf w.dconf priv⟩ }
    else if key = G_PASTE_POP_SETTING then
      g_paste_settings_rebind
        { w with self := ⟨g_paste_settings_private_set_pop_from_dconf w.dconf priv⟩ }
        G_PASTE_POP_SETTING
    else if key = G_PASTE_PRIMARY_TO_HISTORY_SETTING then
      { w with self := ⟨g_paste_settings_private_set_primary_to_history_from_dconf w.dconf priv⟩ }
    else if key = G_PASTE_SAVE_HISTORY_SETTING then
      { w with self := ⟨g_paste_settings_private_set_save_history_from_dconf w.dconf priv⟩ }
    else if key = G_PASTE_SHOW_HISTORY_SETTING then
      g_paste_settings_rebind
        { w with self := ⟨g_paste_settings_private_set_show_history_from_dconf w.dconf priv⟩ }
        G_PASTE_SHOW_HISTORY_SETTING
    else if key = G_PASTE_SYNC_CLIPBOARD_TO_PRIMARY_SETTING then
      g_paste_settings_rebind
        { w with self := ⟨g_paste_settings_private_set_sync_clipboard_to_primary_from_dconf w.dconf priv⟩ }
        G_PASTE_SYNC_CLIPBOARD_TO_PRIMARY_SETTING
    else if key = G_PASTE_SYNC_PRIMARY_TO_CLIPBOARD_SETTING then
      g_paste_settings_rebind
        { w with self := ⟨g_paste_settings_private_set_sync_primary_to_clipboard_from_dconf w.dconf priv⟩ }
        G_PASTE_SYNC_PRIMARY_TO_CLIPBOARD_SETTING
    else if key = G_PASTE_SYNCHRONIZE_CLIPBOARDS_SETTING then
      { w with self := ⟨g_paste_settings_private_set_synchronize_clipboards_from_dconf w.dconf priv⟩ }
    else if key = G_PASTE_TRACK_CHANGES_SETTING then
      let w1 : World :=
        { w with self := ⟨g_paste_settings_private_set_track_changes_from_dconf w.dconf priv⟩ }
      g_signal_emit w1 Signal.TRACK none (GValue.boolean w1.self.priv.track_changes)
    else if key = G_PASTE_TRACK_EXTENSION_STATE_SETTING then
      { w with self := ⟨g_paste_settings_private_set_track_extension_state_from_dconf w.dconf priv⟩ }
    else if key = G_PASTE_TRIM_ITEMS_SETTING then
      { w with self := ⟨g_paste_settings_private_set_trim_items_from_dconf w.dconf priv⟩ }
    else w
  g_signal_emit w Signal.CHANGED (g_quark_from_string key) (GValue.string (some key))

/-! ## Construction and disposal -/

/-- GLib's `g_signal_connect` on the store's `changed` signal: the handler gets
an identifier that no connected or formerly connected handler has. -/
def g_signal_connect (dconf : GSettings) : GSettings × Nat :=
  let id := (dconf.handlers ++ dconf.disconnected).foldl max 0 + 1
  ({ dconf with handlers := dconf.handlers ++ [id] }, id)

/-- GLib's `g_signal_handler_disconnect`. -/
def g_signal_handler_disconnect (dconf : GSettings) (handler_id : Nat) : GSettings :=
  { dconf with
    handlers := dconf.handlers.filter (fun h => h ≠ handler_id)
    disconnected := dconf.disconnected ++ [handler_id] }

/-- Instance initialiser (`g_paste_settings_init`), given the store object that
`g_settings_new ("org.gnome.GPaste")` returns: the five strings start as `NULL`,
every key is read from the store, and the handler is connected. -/
def g_paste_settings_init (dconf : GSettings) (self : GPasteSettings) : World :=
  let priv := g_paste_settings_get_instance_private self
  let priv := { priv with settings := some () }
  let priv := { priv with history_name := none }
  let priv := { priv with pop := none }
  let priv := { priv with show_history := none }
  let priv := { priv with sync_clipboard_to_primary := none }
  let priv := { priv with sync_primary_to_clipboard := none }
  let priv := g_paste_settings_private_set_element_size_from_dconf dconf priv
  let priv := g_paste_settings_private_set_history_name_from_dconf dconf priv
  let priv := g_paste_settings_private_set_images_support_from_dconf dconf priv
  let priv := g_paste_settings_private_set_max_displayed_history_size_from_dconf dconf priv
  let priv := g_paste_settings_private_set_max_history_size_from_dconf dconf priv
  let priv := g_paste_settings_private_set_max_memory_usage_from_dconf dconf priv
  let priv := g_paste_settings_private_set_max_text_item_size_from_dconf dconf priv
  let priv := g_paste_settings_private_set_min_text_item_size_from_dconf dconf priv
  let priv := g_paste_settings_private_set_pop_from_dconf dconf priv
  let priv := g_paste_settings_private_set_primary_to_history_from_dconf dconf priv
  let priv := g_paste_settings_private_set_save_history_from_dconf dconf priv
  let priv := g_paste_settings_private_set_show_history_from_dconf dconf priv
  let priv := g_paste_settings_private_set_sync_clipboard_to_primary_from_dconf dconf priv
  let priv := g_paste_settings_private_set_sync_primary_to_clipboard_from_dconf dconf priv
  let priv := g_paste_settings_private_set_synchronize_clipboards_from_dconf dconf priv
  let priv := g_paste_settings_private_set_track_changes_from_dconf dconf priv
  let priv := g_paste_settings_private_set_track_extension_state_from_dconf dconf priv
  let priv := g_paste_settings_private_set_trim_items_from_dconf dconf priv
  let (dconf, id) := g_signal_connect dconf
  let priv := { priv with changed_signal := id }
  { dconf := dconf, self := ⟨priv⟩, emitted := [] }

/-- Dispose method (`g_paste_settings_dispose`): when the store pointer is set,
the handler is disconnected and the pointer cleared. -/
def g_paste_settings_dispose (w : World) : World :=
  let priv := g_paste_settings_get_instance_private w.self
  let settings := priv.settings
  match settings with
  | some _ =>
    { w with
      dconf := g_signal_handler_disconnect w.dconf priv.changed_signal
      self := ⟨{ priv with settings := none }⟩ }
  | none => w

/-! ## The key table

The eighteen macro instances indexed by one type, so that a statement can range
over all keys. -/

/-- The value types of the settings: the three instantiations of `SETTING`
(`BOOLEAN_SETTING`, `UNSIGNED_SETTING`, `STRING_SETTING`). -/
inductive SettingType where
  | boolean
  | uint
  | string
  deriving DecidableEq, Repr

/-- The C type of a setting of the given kind (third argument of `SETTING`). -/
@[reducible]
def SettingType.ctype : SettingType → Type
  | .boolean => Bool
  | .uint => Nat
  | .string => Option CStr

/-- The C type of the argument of the setter of a setting of the given kind. -/
@[reducible]
def SettingType.argtype : SettingType → Type
  | .boolean => Bool
  | .uint => Nat
  | .string => CStrPtr

/-- The argument that passes a value to a setter from memory outside the
object's own buffers. -/
def SettingType.arg : (t : SettingType) → t.ctype → t.argtype
  | .boolean, b => b
  | .uint, n => n
  | .string, none => CStrPtr.null
  | .string, some str => CStrPtr.other str

/-- The settings of the object, one per instance of the `SETTING` macro. -/
inductive Key where
  | element_size
  | history_name
  | images_support
  | max_displayed_history_size
  | max_history_size
  | max_memory_usage
  | max_text_item_size
  | min_text_item_size
  | pop
  | primary_to_history
  | save_history
  | show_history
  | sync_clipboard_to_primary
  | sync_primary_to_clipboard
  | synchronize_clipboards
  | track_changes
  | track_extension_state
  | trim_items
  deriving DecidableEq, Repr

/-- The macro that defines the accessors of the key. -/
@[reducible]
def Key.setting_type : Key → SettingType
  | .element_size => .uint
  | .history_name => .string
  | .images_support => .boolean
  | .max_displayed_history_size => .uint
  | .max_history_size => .uint
  | .max_memory_usage => .uint
  | .max_text_item_size => .uint
  | .min_text_item_size => .uint
  | .pop => .string
  | .primary_to_history => .boolean
  | .save_history => .boolean
  | .show_history => .string
  | .sync_clipboard_to_primary => .string
  | .sync_primary_to_clipboard => .string
  | .synchronize_clipboards => .boolean
  | .track_changes => .boolean
  | .track_extension_state => .boolean
  | .trim_items => .boolean

/-- The C type of the value of the key. -/
abbrev Key.ctype (k : Key) : Type := k.setting_type.ctype

/-- The C type of the argument of the setter of the key. -/
abbrev Key.argtype (k : Key) : Type := k.setting_type.argtype

/-- The name of the key in the store (`G_PASTE_<KEY>_SETTING`). -/
@[simp]
def Key.name : Key → String
  | .element_size => G_PASTE_ELEMENT_SIZE_SETTING
  | .history_name => G_PASTE_HISTORY_NAME_SETTING
  | .images_support => G_PASTE_IMAGES_SUPPORT_SETTING
  | .max_displayed_history_size => G_PASTE_MAX_DISPLAYED_HISTORY_SIZE_SETTING
  | .max_history_size => G_PASTE_MAX_HISTORY_SIZE_SETTING
  | .max_memory_usage => G_PASTE_MAX_MEMORY_USAGE_SETTING
  | .max_text_item_size => G_PASTE_MAX_TEXT_ITEM_SIZE_SETTING
  | .min_text_item_size => G_PASTE_MIN_TEXT_ITEM_SIZE_SETTING
  | .pop => G_PASTE_POP_SETTING
  | .primary_to_history => G_PASTE_PRIMARY_TO_HISTORY_SETTING
  | .save_history => G_PASTE_SAVE_HISTORY_SETTING
  | .show_history => G_PASTE_SHOW_HISTORY_SETTING
  | .sync_clipboard_to_primary => G_PASTE_SYNC_CLIPBOARD_TO_PRIMARY_SETTING
  | .sync_primary_to_clipboard => G_PASTE_SYNC_PRIMARY_TO_CLIPBOARD_SETTING
  | .synchronize_clipboards => G_PASTE_SYNCHRONIZE_CLIPBOARDS_SETTING
  | .track_changes => G_PASTE_TRACK_CHANGES_SETTING
  | .track_extension_state => G_PASTE_TRACK_EXTENSION_STATE_SETTING
  | .trim_items => G_PASTE_TRIM_ITEMS_SETTING

/-- The getter of the key, `g_paste_settings_get_<name>`. -/
@[simp]
def g_paste_settings_get : (k : Key) → GPasteSettings → k.ctype
  | .element_size => g_paste_settings_get_element_size
  | .history_name => g_paste_settings_get_history_name
  | .images_support => g_paste_settings_get_images_support
  | .max_displayed_history_size => g_paste_settings_get_max_displayed_history_size
  | .max_history_size => g_paste_settings_get_max_history_size
  | .max_memory_usage => g_paste_settings_get_max_memory_usage
  | .max_text_item_size => g_paste_settings_get_max_text_item_size
  | .min_text_item_size => g_paste_settings_get_min_text_item_size
  | .pop => g_paste_settings_get_pop
  | .primary_to_history => g_paste_settings_get_primary_to_history
  | .save_history => g_paste_settings_get_save_history
  | .show_history => g_paste_settings_get_show_history
  | .sync_clipboard_to_primary => g_paste_settings_get_sync_clipboard_to_primary
  | .sync_primary_to_clipboard => g_paste_settings_get_sync_primary_to_clipboard
  | .synchronize_clipboards => g_paste_settings_get_synchronize_clipboards
  | .track_changes => g_paste_settings_get_track_changes
  | .track_extension_state => g_paste_settings_get_track_extension_state
  | .trim_items => g_paste_settings_get_trim_items

/-- The setter of the key, `g_paste_settings_set_<name>`. -/
@[simp]
def g_paste_settings_set : (k : Key) → World → k.argtype → World
  | .element_size => g_paste_settings_set_element_size
  | .history_name => g_paste_settings_set_history_name
  | .images_support => g_paste_settings_set_images_support
  | .max_displayed_history_size => g_paste_settings_set_max_displayed_history_size
  | .max_history_size => g_paste_settings_set_max_history_size
  | .max_memory_usage => g_paste_settings_set_max_memory_usage
  | .max_text_item_size => g_paste_settings_set_max_text_item_size
  | .min_text_item_size => g_paste_settings_set_min_text_item_size
  | .pop => g_paste_settings_set_pop
  | .primary_to_history => g_paste_settings_set_primary_to_history
  | .save_history => g_paste_settings_set_save_history
  | .show_history => g_paste_settings_set_show_history
  | .sync_clipboard_to_primary => g_paste_settings_set_sync_clipboard_to_primary
  | .sync_primary_to_clipboard => g_paste_settings_set_sync_primary_to_clipboard
  | .synchronize_clipboards => g_paste_settings_set_synchronize_clipboards
  | .track_changes => g_paste_settings_set_track_changes
  | .track_extension_state => g_paste_settings_set_track_extension_state
  | .trim_items => g_paste_settings_set_trim_items

/-- The store's value of the key, as a read with the key's type returns it
(`g_settings_get_<type>` on the store object). -/
@[simp]
def store_value (dconf : GSettings) : (k : Key) → k.ctype
  | .element_size => g_settings_get_uint dconf (some ()) G_PASTE_ELEMENT_SIZE_SETTING
  | .history_name => g_settings_get_string dconf (some ()) G_PASTE_HISTORY_NAME_SETTING
  | .images_support => g_settings_get_boolean dconf (some ()) G_PASTE_IMAGES_SUPPORT_SETTING
  | .max_displayed_history_size => g_settings_get_uint dconf (some ()) G_PASTE_MAX_DISPLAYED_HISTORY_SIZE_SETTING
  | .max_history_size => g_settings_get_uint dconf (some ()) G_PASTE_MAX_HISTORY_SIZE_SETTING
  | .max_memory_usage => g_settings_get_uint dconf (some ()) G_PASTE_MAX_MEMORY_USAGE_SETTING
  | .max_text_item_size => g_settings_get_uint dconf (some ()) G_PASTE_MAX_TEXT_ITEM_SIZE_SETTING
  | .min_text_item_size => g_settings_get_uint dconf (some ()) G_PASTE_MIN_TEXT_ITEM_SIZE_SETTING
  | .pop => g_settings_get_string dconf (some ()) G_PASTE_POP_SETTING
  | .primary_to_history => g_settings_get_boolean dconf (some ()) G_PASTE_PRIMARY_TO_HISTORY_SETTING
  | .save_history => g_settings_get_boolean dconf (some ()) G_PASTE_SAVE_HISTORY_SETTING
  | .show_history => g_settings_get_string dconf (some ()) G_PASTE_SHOW_HISTORY_SETTING
  | .sync_clipboard_to_primary => g_settings_get_string dconf (some ()) G_PASTE_SYNC_CLIPBOARD_TO_PRIMARY_SETTING
  | .sync_primary_to_clipboard => g_settings_get_string dconf (some ()) G_PASTE_SYNC_PRIMARY_TO_CLIPBOARD_SETTING
  | .synchronize_clipboards => g_settings_get_boolean dconf (some ()) G_PASTE_SYNCHRONIZE_CLIPBOARDS_SETTING
  | .track_changes => g_settings_get_boolean dconf (some ()) G_PASTE_TRACK_CHANGES_SETTING
  | .track_extension_state => g_settings_get_boolean dconf (some ()) G_PASTE_TRACK_EXTENSION_STATE_SETTING
  | .trim_items => g_settings_get_boolean dconf (some ()) G_PASTE_TRIM_ITEMS_SETTING

/-- The validation rule of a value type, in the words of the specification: any
boolean, any unsigned 32-bit integer, any text that is present and valid UTF-8. -/
def SettingType.accepts : (t : SettingType) → t.ctype → Bool
  | .boolean, _ => true
  | .uint, v => decide (v < 2 ^ 32)
  | .string, none => false
  | .string, some str => g_utf8_validate str

/-- The keys whose change asks for a shortcut to be bound again (the RebindSet
of the specification). -/
def rebind_keys : List String :=
  [G_PASTE_POP_SETTING, G_PASTE_SHOW_HISTORY_SETTING,
   G_PASTE_SYNC_CLIPBOARD_TO_PRIMARY_SETTING, G_PASTE_SYNC_PRIMARY_TO_CLIPBOARD_SETTING]

/-- The names of the eighteen recognized keys. -/
def recognized_keys : List String :=
  [G_PASTE_ELEMENT_SIZE_SETTING,
   G_PASTE_HISTORY_NAME_SETTING,
   G_PASTE_IMAGES_SUPPORT_SETTING,
   G_PASTE_MAX_DISPLAYED_HISTORY_SIZE_SETTING,
   G_PASTE_MAX_HISTORY_SIZE_SETTING,
   G_PASTE_MAX_MEMORY_USAGE_SETTING,
   G_PASTE_MAX_TEXT_ITEM_SIZE_SETTING,
   G_PASTE_MIN_TEXT_ITEM_SIZE_SETTING,
   G_PASTE_POP_SETTING,
   G_PASTE_PRIMARY_TO_HISTORY_SETTING,
   G_PASTE_SAVE_HISTORY_SETTING,
   G_PASTE_SHOW_HISTORY_SETTING,
   G_PASTE_SYNC_CLIPBOARD_TO_PRIMARY_SETTING,
   G_PASTE_SYNC_PRIMARY_TO_CLIPBOARD_SETTING,
   G_PASTE_SYNCHRONIZE_CLIPBOARDS_SETTING,
   G_PASTE_TRACK_CHANGES_SETTING,
   G_PASTE_TRACK_EXTENSION_STATE_SETTING,
   G_PASTE_TRIM_ITEMS_SETTING]

/-- The emissions made while the handler runs for `key` from the state `w`. -/
def emitted_by (w : World) (key : String) : List Emission :=
  (g_paste_settings_settings_changed w key).emitted.drop w.emitted.length

/-- A store object for examples: every boolean `FALSE`, every number `0`, every
string empty, except `history-name`, which is `history`. -/
def dconf0 : GSettings where
  booleans := fun _ => false
  uints := fun _ => 0
  strings := fun k => if k = G_PASTE_HISTORY_NAME_SETTING then [104, 105, 115, 116, 111, 114, 121] else []
  handlers := []
  disconnected := []

/-- An instance whose memory is zero-filled, as GObject hands it to the
initialiser. -/
def self0 : GPasteSettings :=
  ⟨{ settings := none, element_size := 0, history_name := none, images_support := false,
     max_displayed_history_size := 0, max_history_size := 0, max_memory_usage := 0,
     max_text_item_size := 0, min_text_item_size := 0, pop := none,
     primary_to_history := false, save_history := false, show_history := none,
     sync_clipboard_to_primary := none, sync_primary_to_clipboard := none,
     synchronize_clipboards := false, track_changes := false,
     track_extension_state := false, trim_items := false, changed_signal := 0 }⟩

/-- The state right after construction over `dconf0`. -/
def world0 : World := g_paste_settings_init dconf0 self0

/-- The state `world0` after another process has set `track-changes` and
`max-history-size` in the store and before the notifications are handled: the
cache still has the old values. -/
def world1 : World :=
  { world0 with
    dconf :=
      g_settings_set_uint
        (g_settings_set_boolean world0.dconf (some ()) G_PASTE_TRACK_CHANGES_SETTING true)
        (some ()) G_PASTE_MAX_HISTORY_SIZE_SETTING 100 }

/-- The shortcut text `<Ctrl><Alt>H`. -/
def ctrl_alt_h : CStr := [60, 67, 116, 114, 108, 62, 60, 65, 108, 116, 62, 72]

/-- Five bytes as freed memory may hold them (allocator bookkeeping); they are
not valid UTF-8. -/
def freed_bytes : CStr := [238, 218, 127, 94, 5]

/-- The state `world0` after `pop` was set to `<Ctrl><Alt>H` from a string of the
caller: cache and store both hold it. -/
def world2 : World := g_paste_settings_set_pop world0 (CStrPtr.other ctrl_alt_h)

/-- The state `world2` after another process has set `pop` to `x` in the store
and before the notification is handled. -/
def world3 : World :=
  { world2 with
    dconf := g_settings_set_string world2.dconf (some ()) G_PASTE_POP_SETTING (some [120]) }

/-- The store `dconf0` with `max-history-size` set to 100. -/
def dconf100 : GSettings :=
  g_settings_set_uint dconf0 (some ()) G_PASTE_MAX_HISTORY_SIZE_SETTING 100

/-- The eighteen keys, in the order of the accessors in the source. -/
def all_keys : List Key :=
  [.element_size, .history_name, .images_support, .max_displayed_history_size,
   .max_history_size, .max_memory_usage, .max_text_item_size, .min_text_item_size, .pop,
   .primary_to_history, .save_history, .show_history, .sync_clipboard_to_primary,
   .sync_primary_to_clipboard, .synchronize_clipboards, .track_changes, .track_extension_state,
   .trim_items]

/-- The cache agrees with the store on every key: each getter returns what a
read of the key from the store returns. -/
def coherent (w : World) : Prop :=
  ∀ k : Key, g_paste_settings_get k w.self = store_value w.dconf k

/-- The states reached by construction followed by setter calls and runs of the
notification handler, in any number and order. -/
inductive Reachable : World → Prop where
  | init (dconf : GSettings) (self : GPasteSettings) :
      Reachable (g_paste_settings_init dconf self)
  | set {w : World} (k : Key) (v : k.argtype) :
      Reachable w → Reachable (g_paste_settings_set k w v)
  | notify {w : World} (key : String) :
      Reachable w → Reachable (g_paste_settings_settings_changed w key)

/-- The event an emission delivers: signal, detail and parameter, without the
state of the emitting instance. -/
def Emission.event (e : Emission) : Signal × GQuark × GValue :=
  (e.signal_id, e.detail, e.param)

/-! ## Lemmas on the notification handler -/

theorem mem_recognized_keys (key : String) :
    key ∈ recognized_keys ↔ ∃ k : Key, k.name = key := by
  constructor
  · intro h
    simp only [recognized_keys, List.mem_cons, List.mem_singleton, List.not_mem_nil, or_false] at h
    rcases h with h | h | h | h | h | h | h | h | h | h | h | h | h | h | h | h | h | h
    · exact ⟨.element_size, h.symm⟩
    · exact ⟨.history_name, h.symm⟩
    · exact ⟨.images_support, h.symm⟩
    · exact ⟨.max_displayed_history_size, h.symm⟩
    · exact ⟨.max_history_size, h.symm⟩
    · exact ⟨.max_memory_usage, h.symm⟩
    · exact ⟨.max_text_item_size, h.symm⟩
    · exact ⟨.min_text_item_size, h.symm⟩
    · exact ⟨.pop, h.symm⟩
    · exact ⟨.primary_to_history, h.symm⟩
    · exact ⟨.save_history, h.symm⟩
    · exact ⟨.show_history, h.symm⟩
    · exact ⟨.sync_clipboard_to_primary, h.symm⟩
    · exact ⟨.sync_primary_to_clipboard, h.symm⟩
    · exact ⟨.synchronize_clipboards, h.symm⟩
    · exact ⟨.track_changes, h.symm⟩
    · exact ⟨.track_extension_state, h.symm⟩
    · exact ⟨.trim_items, h.symm⟩
  · rintro ⟨k, rfl⟩
    cases k <;> simp [recognized_keys]

theorem settings_changed_unrecognized (w : World) (key : String) (h : key ∉ recognized_keys) :
    g_paste_settings_settings_changed w key =
      { w with emitted := w.emitted ++
          [⟨Signal.CHANGED, some key, GValue.string (some key), w.self⟩] } := by
  simp only [recognized_keys, List.mem_cons, List.mem_singleton, List.not_mem_nil, or_false,
    not_or] at h
  obtain ⟨h1, h2, h3, h4, h5, h6, h7, h8, h9, h10, h11, h12, h13, h14, h15, h16, h17, h18⟩ := h
  simp only [g_paste_settings_settings_changed, if_neg h1, if_neg h2, if_neg h3, if_neg h4,
    if_neg h5, if_neg h6, if_neg h7, if_neg h8, if_neg h9, if_neg h10, if_neg h11, if_neg h12,
    if_neg h13, if_neg h14, if_neg h15, if_neg h16, if_neg h17, if_neg h18, g_signal_emit,
    g_quark_from_string]

theorem settings_changed_dconf (w : World) (key : String) :
    (g_paste_settings_settings_changed w key).dconf = w.dconf := by
  by_cases h : key ∈ recognized_keys
  · obtain ⟨k, rfl⟩ := (mem_recognized_keys key).1 h
    cases k <;>
      simp only [Key.name, g_paste_settings_settings_changed, G_PASTE_ELEMENT_SIZE_SETTING,
        G_PASTE_HISTORY_NAME_SETTING, G_PASTE_IMAGES_SUPPORT_SETTING,
        G_PASTE_MAX_DISPLAYED_HISTORY_SIZE_SETTING, G_PASTE_MAX_HISTORY_SIZE_SETTING,
        G_PASTE_MAX_MEMORY_USAGE_SETTING, G_PASTE_MAX_TEXT_ITEM_SIZE_SETTING,
        G_PASTE_MIN_TEXT_ITEM_SIZE_SETTING, G_PASTE_POP_SETTING,
        G_PASTE_PRIMARY_TO_HISTORY_SETTING, G_PASTE_SAVE_HISTORY_SETTING,
        G_PASTE_SHOW_HISTORY_SETTING, G_PASTE_SYNC_CLIPBOARD_TO_PRIMARY_SETTING,
        G_PASTE_SYNC_PRIMARY_TO_CLIPBOARD_SETTING, G_PASTE_SYNCHRONIZE_CLIPBOARDS_SETTING,
        G_PASTE_TRACK_CHANGES_SETTING, G_PASTE_TRACK_EXTENSION_STATE_SETTING,
        G_PASTE_TRIM_ITEMS_SETTING, String.reduceEq, if_false, if_true, g_signal_emit,
        g_paste_settings_rebind]
  · rw [settings_changed_unrecognized w key h]

theorem settings_changed_emitted (w : World) (key : String) :
    (g_paste_settings_settings_changed w key).emitted =
      w.emitted
        ++ (if key ∈ rebind_keys then
              [⟨Signal.REBIND, some key, GValue.string none,
                (g_paste_settings_settings_changed w key).self⟩]
            else [])
        ++ (if key = G_PASTE_TRACK_CHANGES_SETTING then
              [⟨Signal.TRACK, none,
                GValue.boolean (g_paste_settings_settings_changed w key).self.priv.track_changes,
                (g_paste_settings_settings_changed w key).self⟩]
            else [])
        ++ [⟨Signal.CHANGED, some key, GValue.string (some key),
              (g_paste_settings_settings_changed w key).self⟩] := by
  by_cases h : key ∈ recognized_keys
  · obtain ⟨k, rfl⟩ := (mem_recognized_keys key).1 h
    cases k <;>
      simp only [Key.name, g_paste_settings_settings_changed, G_PASTE_ELEMENT_SIZE_SETTING,
        G_PASTE_HISTORY_NAME_SETTING, G_PASTE_IMAGES_SUPPORT_SETTING,
        G_PASTE_MAX_DISPLAYED_HISTORY_SIZE_SETTING, G_PASTE_MAX_HISTORY_SIZE_SETTING,
        G_PASTE_MAX_MEMORY_USAGE_SETTING, G_PASTE_MAX_TEXT_ITEM_SIZE_SETTING,
        G_PASTE_MIN_TEXT_ITEM_SIZE_SETTING, G_PASTE_POP_SETTING,
        G_PASTE_PRIMARY_TO_HISTORY_SETTING, G_PASTE_SAVE_HISTORY_SETTING,
        G_PASTE_SHOW_HISTORY_SETTING, G_PASTE_SYNC_CLIPBOARD_TO_PRIMARY_SETTING,
        G_PASTE_SYNC_PRIMARY_TO_CLIPBOARD_SETTING, G_PASTE_SYNCHRONIZE_CLIPBOARDS_SETTING,
        G_PASTE_TRACK_CHANGES_SETTING, G_PASTE_TRACK_EXTENSION_STATE_SETTING,
        G_PASTE_TRIM_ITEMS_SETTING, String.reduceEq, if_false, if_true, g_signal_emit,
        g_paste_settings_rebind, g_quark_from_string, rebind_keys, List.mem_cons,
        List.mem_singleton, List.not_mem_nil, or_false, or_true, true_or, or_self,
        List.append_nil, List.append_assoc, List.singleton_append, List.nil_append]
  · have h1 : key ∉ rebind_keys := by
      intro hr
      apply h
      simp only [rebind_keys, List.mem_cons, List.mem_singleton, List.not_mem_nil, or_false] at hr
      simp only [recognized_keys, List.mem_cons, List.mem_singleton]
      tauto
    have h2 : key ≠ G_PASTE_TRACK_CHANGES_SETTING := by
      intro ht
      apply h
      simp only [recognized_keys, List.mem_cons, List.mem_singleton]
      tauto
    rw [settings_changed_unrecognized w key h]
    simp only [if_neg h1, if_neg h2, List.append_nil]

theorem emitted_by_eq (w : World) (key : String) :
    emitted_by w key =
      (if key ∈ rebind_keys then
          [⟨Signal.REBIND, some key, GValue.string none,
            (g_paste_settings_settings_changed w key).self⟩]
        else [])
        ++ (if key = G_PASTE_TRACK_CHANGES_SETTING then
              [⟨Signal.TRACK, none,
                GValue.boolean (g_paste_settings_settings_changed w key).self.priv.track_changes,
                (g_paste_settings_settings_changed w key).self⟩]
            else [])
        ++ [⟨Signal.CHANGED, some key, GValue.string (some key),
              (g_paste_settings_settings_changed w key).self⟩] := by
  unfold emitted_by
  rw [settings_changed_emitted w key]
  simp only [List.append_assoc, List.drop_left]

theorem settings_changed_get (k : Key) (w : World) (hlive : w.self.priv.settings = some ()) :
    g_paste_settings_get k (g_paste_settings_settings_changed w k.name).self =
      store_value w.dconf k := by
  cases k <;>
    simp only [Key.name, g_paste_settings_settings_changed, G_PASTE_ELEMENT_SIZE_SETTING,
      G_PASTE_HISTORY_NAME_SETTING, G_PASTE_IMAGES_SUPPORT_SETTING,
      G_PASTE_MAX_DISPLAYED_HISTORY_SIZE_SETTING, G_PASTE_MAX_HISTORY_SIZE_SETTING,
      G_PASTE_MAX_MEMORY_USAGE_SETTING, G_PASTE_MAX_TEXT_ITEM_SIZE_SETTING,
      G_PASTE_MIN_TEXT_ITEM_SIZE_SETTING, G_PASTE_POP_SETTING,
      G_PASTE_PRIMARY_TO_HISTORY_SETTING, G_PASTE_SAVE_HISTORY_SETTING,
      G_PASTE_SHOW_HISTORY_SETTING, G_PASTE_SYNC_CLIPBOARD_TO_PRIMARY_SETTING,
      G_PASTE_SYNC_PRIMARY_TO_CLIPBOARD_SETTING, G_PASTE_SYNCHRONIZE_CLIPBOARDS_SETTING,
      G_PASTE_TRACK_CHANGES_SETTING, G_PASTE_TRACK_EXTENSION_STATE_SETTING,
      G_PASTE_TRIM_ITEMS_SETTING, String.reduceEq, if_false, if_true, g_signal_emit,
      g_paste_settings_rebind] <;>
    simp [g_paste_settings_get_instance_private, hlive]

/-! ## Lemmas on the setters -/

theorem set_get (k : Key) (w : World) (v : k.ctype) (h : k.setting_type.accepts v = true) :
    g_paste_settings_get k (g_paste_settings_set k w (k.setting_type.arg v)).self = v := by
  cases k <;> simp only [Key.setting_type] at h
  all_goals first
    | (simp [g_paste_settings_get_instance_private, SettingType.arg]
       done)
    | (simp only [SettingType.accepts, decide_eq_true_eq] at h
       simp [g_paste_settings_get_instance_private, SettingType.arg]
       exact Nat.mod_eq_of_lt h)
    | (cases v with
       | none => simp [SettingType.accepts] at h
       | some str =>
         simp only [SettingType.accepts] at h
         simp [g_paste_settings_get_instance_private, SettingType.arg, h])

theorem set_store_value (k : Key) (w : World) (v : k.ctype)
    (hlive : w.self.priv.settings = some ()) (h : k.setting_type.accepts v = true) :
    store_value (g_paste_settings_set k w (k.setting_type.arg v)).dconf k = v := by
  cases k <;> simp only [Key.setting_type] at h
  all_goals first
    | (simp [g_paste_settings_get_instance_private, SettingType.arg, hlive]
       done)
    | (simp only [SettingType.accepts, decide_eq_true_eq] at h
       simp [g_paste_settings_get_instance_private, SettingType.arg, hlive]
       exact Nat.mod_eq_of_lt h)
    | (cases v with
       | none => simp [SettingType.accepts] at h
       | some str =>
         simp only [SettingType.accepts] at h
         simp [g_paste_settings_get_instance_private, SettingType.arg, h, hlive])

theorem set_emitted (k : Key) (w : World) (v : k.argtype) :
    (g_paste_settings_set k w v).emitted = w.emitted := by
  cases k <;> first
    | rfl
    | (simp only [g_paste_settings_set, g_paste_settings_set_history_name,
         g_paste_settings_set_pop, g_paste_settings_set_show_history,
         g_paste_settings_set_sync_clipboard_to_primary,
         g_paste_settings_set_sync_primary_to_clipboard]
       split
       · rfl
       · split <;> rfl)

theorem set_settings (k : Key) (w : World) (v : k.argtype) :
    (g_paste_settings_set k w v).self.priv.settings = w.self.priv.settings := by
  cases k <;> first
    | rfl
    | (simp only [g_paste_settings_set, g_paste_settings_set_history_name,
         g_paste_settings_set_pop, g_paste_settings_set_show_history,
         g_paste_settings_set_sync_clipboard_to_primary,
         g_paste_settings_set_sync_primary_to_clipboard]
       split
       · rfl
       · split <;> rfl)

/-! ## Setters: round trip, validation, write-through -/

/-- Claim C1 is broken by the code at `set (pop, get (pop))`. In `world2` the
getter of `pop` returns `<Ctrl><Alt>H`, which passes the validation rule. The
setter called with that very pointer frees the cached buffer before it copies
from it, so the getter then returns what the freed memory held, here
`freed_bytes`, and not the value. The same text passed from the caller's own
memory does round-trip. -/
theorem set_cached_pointer_breaks_round_trip :
    g_paste_settings_get_pop world2.self = some ctrl_alt_h ∧
      SettingType.string.accepts (g_paste_settings_get_pop world2.self) = true ∧
      g_paste_settings_get_pop
          (g_paste_settings_set_pop world2 (CStrPtr.cached 0 freed_bytes)).self
        = some freed_bytes ∧
      g_paste_settings_get_pop
          (g_paste_settings_set_pop world2 (CStrPtr.cached 0 freed_bytes)).self
        ≠ g_paste_settings_get_pop world2.self ∧
      g_paste_settings_get_pop
          (g_paste_settings_set_pop world2 (CStrPtr.other ctrl_alt_h)).self
        = some ctrl_alt_h := by
  refine ⟨?_, ?_, ?_, ?_, ?_⟩ <;> decide

/-- Claim C2, as stated, fails: on the freshly constructed object, whose
`history-name` is `history`, the setter called with the empty string changes
both the cached value and the store entry. -/
theorem set_empty_text_changes_state :
    g_paste_settings_get_history_name
          (g_paste_settings_set_history_name world0 (CStrPtr.other [])).self
        ≠ g_paste_settings_get_history_name world0.self ∧
      (g_paste_settings_set_history_name world0 (CStrPtr.other [])).dconf.strings
          G_PASTE_HISTORY_NAME_SETTING
        ≠ world0.dconf.strings G_PASTE_HISTORY_NAME_SETTING := by
  constructor <;> decide

/-- Claim C2, amended: the empty string is present and valid UTF-8, so each of
the five text setters accepts it when it is passed from memory other than the
buffer cached for the key: on an object that holds its store, the getter returns
the empty string afterwards and the store entry is the empty string. -/
theorem set_empty_text_is_accepted (w : World) (hlive : w.self.priv.settings = some ()) :
    (g_paste_settings_get_history_name
          (g_paste_settings_set_history_name w (CStrPtr.other [])).self = some [] ∧
      (g_paste_settings_set_history_name w (CStrPtr.other [])).dconf.strings
        G_PASTE_HISTORY_NAME_SETTING = []) ∧
    (g_paste_settings_get_pop (g_paste_settings_set_pop w (CStrPtr.other [])).self
        = some [] ∧
      (g_paste_settings_set_pop w (CStrPtr.other [])).dconf.strings G_PASTE_POP_SETTING
        = []) ∧
    (g_paste_settings_get_show_history
          (g_paste_settings_set_show_history w (CStrPtr.other [])).self = some [] ∧
      (g_paste_settings_set_show_history w (CStrPtr.other [])).dconf.strings
        G_PASTE_SHOW_HISTORY_SETTING = []) ∧
    (g_paste_settings_get_sync_clipboard_to_primary
        (g_paste_settings_set_sync_clipboard_to_primary w (CStrPtr.other [])).self
        = some [] ∧
      (g_paste_settings_set_sync_clipboard_to_primary w (CStrPtr.other [])).dconf.strings
        G_PASTE_SYNC_CLIPBOARD_TO_PRIMARY_SETTING = []) ∧
    (g_paste_settings_get_sync_primary_to_clipboard
        (g_paste_settings_set_sync_primary_to_clipboard w (CStrPtr.other [])).self
        = some [] ∧
      (g_paste_settings_set_sync_primary_to_clipboard w (CStrPtr.other [])).dconf.strings
        G_PASTE_SYNC_PRIMARY_TO_CLIPBOARD_SETTING = []) := by
  have hv : g_utf8_validate [] = true := rfl
  refine ⟨?_, ?_, ?_, ?_, ?_⟩ <;> simp [g_paste_settings_get_instance_private, hv, hlive]

/-- Witness of the amended C2: in `world2` the cached `pop` is `<Ctrl><Alt>H`, and
the empty string passed by the caller replaces it. -/
theorem set_empty_text_is_accepted_witness :
    world2.self.priv.settings = some () ∧
      g_paste_settings_get_pop world2.self = some ctrl_alt_h ∧
      g_paste_settings_get_pop (g_paste_settings_set_pop world2 (CStrPtr.other [])).self
        = some [] :=
  ⟨by decide, by decide, (set_empty_text_is_accepted world2 (by decide)).2.1.1⟩

/-- Claim C3: each of the five text setters, called with a pointer that is `NULL`
or through which bytes that are not valid UTF-8 are read, returns the state it
was given: cache, store and emission log are all unchanged. This covers a
`NULL`, a string of the caller and a pointer into the buffer cached for the key
alike, because both guards return before the cached buffer is freed. -/
theorem set_absent_or_malformed_text_is_rejected (w : World) (value : CStrPtr) :
    ((value.read w.self.priv.history_name = none ∨
        ∃ str, value.read w.self.priv.history_name = some str ∧
          g_utf8_validate str = false) →
      g_paste_settings_set_history_name w value = w) ∧
    ((value.read w.self.priv.pop = none ∨
        ∃ str, value.read w.self.priv.pop = some str ∧ g_utf8_validate str = false) →
      g_paste_settings_set_pop w value = w) ∧
    ((value.read w.self.priv.show_history = none ∨
        ∃ str, value.read w.self.priv.show_history = some str ∧
          g_utf8_validate str = false) →
      g_paste_settings_set_show_history w value = w) ∧
    ((value.read w.self.priv.sync_clipboard_to_primary = none ∨
        ∃ str, value.read w.self.priv.sync_clipboard_to_primary = some str ∧
          g_utf8_validate str = false) →
      g_paste_settings_set_sync_clipboard_to_primary w value = w) ∧
    ((value.read w.self.priv.sync_primary_to_clipboard = none ∨
        ∃ str, value.read w.self.priv.sync_primary_to_clipboard = some str ∧
          g_utf8_validate str = false) →
      g_paste_settings_set_sync_primary_to_clipboard w value = w) := by
  refine ⟨?_, ?_, ?_, ?_, ?_⟩
  all_goals
    intro h
    rcases h with h | ⟨str, h, hstr⟩
    · simp only [g_paste_settings_set_history_name, g_paste_settings_set_pop,
        g_paste_settings_set_show_history, g_paste_settings_set_sync_clipboard_to_primary,
        g_paste_settings_set_sync_primary_to_clipboard,
        g_paste_settings_get_instance_private, h]
    · simp only [g_paste_settings_set_history_name, g_paste_settings_set_pop,
        g_paste_settings_set_show_history, g_paste_settings_set_sync_clipboard_to_primary,
        g_paste_settings_set_sync_primary_to_clipboard,
        g_paste_settings_get_instance_private, h, hstr, if_true]

/-- Witness of C3: the single byte `0xFF`, which is not UTF-8, passed to the setter
of `history-name`, and `NULL` passed to the setter of `pop`, on the freshly
constructed object. -/
theorem set_absent_or_malformed_text_is_rejected_witness :
    ((CStrPtr.other [255]).read world0.self.priv.history_name = none ∨
        ∃ str, (CStrPtr.other [255]).read world0.self.priv.history_name = some str ∧
          g_utf8_validate str = false) ∧
      g_paste_settings_set_history_name world0 (CStrPtr.other [255]) = world0 ∧
      g_paste_settings_set_pop world0 CStrPtr.null = world0 :=
  ⟨Or.inr ⟨[255], rfl, by decide⟩,
    (set_absent_or_malformed_text_is_rejected world0 (CStrPtr.other [255])).1
      (Or.inr ⟨[255], rfl, by decide⟩),
    (set_absent_or_malformed_text_is_rejected world0 CStrPtr.null).2.1 (Or.inl rfl)⟩

/-- Claim C4 is broken by the code at `set (pop, get (pop))`. In `world3` the
object holds its store, the getter of `pop` returns `<Ctrl><Alt>H` and the store
has `x`. The setter called with the getter's pointer frees the cached buffer
first: afterwards the cache holds what the freed memory held, `freed_bytes`, and
the store, which refuses these bytes, still has `x`; neither holds the value.
The same text passed from the caller's own memory is written through. -/
theorem set_cached_pointer_breaks_write_through :
    world3.self.priv.settings = some () ∧
      g_paste_settings_get_pop world3.self = some ctrl_alt_h ∧
      g_paste_settings_get_pop
          (g_paste_settings_set_pop world3 (CStrPtr.cached 0 freed_bytes)).self
        = some freed_bytes ∧
      (g_paste_settings_set_pop world3 (CStrPtr.cached 0 freed_bytes)).dconf.strings
          G_PASTE_POP_SETTING = [120] ∧
      g_paste_settings_get_pop
          (g_paste_settings_set_pop world3 (CStrPtr.other ctrl_alt_h)).self
        = some ctrl_alt_h ∧
      (g_paste_settings_set_pop world3 (CStrPtr.other ctrl_alt_h)).dconf.strings
          G_PASTE_POP_SETTING = ctrl_alt_h := by
  refine ⟨?_, ?_, ?_, ?_, ?_, ?_⟩ <;> decide

/-! ## The notification handler: re-synchronisation -/

/-- Claim C5: on an object that holds its store, for every recognized key and
every state, also one whose cache disagrees with the store, after the handler
has run for the key the getter returns the store's current value of the key;
the handler does not write to the store. -/
theorem notification_resynchronises (k : Key) (w : World)
    (hlive : w.self.priv.settings = some ()) :
    g_paste_settings_get k (g_paste_settings_settings_changed w k.name).self
        = store_value (g_paste_settings_settings_changed w k.name).dconf k ∧
      (g_paste_settings_settings_changed w k.name).dconf = w.dconf := by
  rw [settings_changed_dconf]
  exact ⟨settings_changed_get k w hlive, rfl⟩

/-- Witness of C5: the store says `max-history-size` is 100 while the cache
still says 0; after the notification the getter returns 100. -/
theorem notification_resynchronises_witness :
    world1.self.priv.settings = some () ∧
      g_paste_settings_get Key.max_history_size world1.self = (0 : Nat) ∧
      store_value world1.dconf Key.max_history_size = (100 : Nat) ∧
      g_paste_settings_get Key.max_history_size
          (g_paste_settings_settings_changed world1 Key.max_history_size.name).self
        = store_value
            (g_paste_settings_settings_changed world1 Key.max_history_size.name).dconf
            Key.max_history_size :=
  ⟨by decide, by decide, by decide,
    (notification_resynchronises Key.max_history_size world1 (by decide)).1⟩

/-! ## The notification handler: emitted signals -/

/-- Claim C6: for every recognized key, the emissions of one run of the handler
are appended to the log and end with a `changed` emission whose detail is the
quark of the key and whose parameter is the key; every emission before it is a
`rebind` or a `track`, so there is exactly one `changed` and it comes last. -/
theorem changed_emitted_once_and_last (k : Key) (w : World) :
    (g_paste_settings_settings_changed w k.name).emitted = w.emitted ++ emitted_by w k.name ∧
      ∃ (pre : List Emission) (c : Emission),
        emitted_by w k.name = pre ++ [c] ∧
        c.signal_id = Signal.CHANGED ∧
        c.detail = g_quark_from_string k.name ∧
        c.param = GValue.string (some k.name) ∧
        (∀ e ∈ pre, e.signal_id = Signal.REBIND ∨ e.signal_id = Signal.TRACK) ∧
        (emitted_by w k.name).countP (fun e => e.signal_id = Signal.CHANGED) = 1 := by
  refine ⟨?_, ?_⟩
  · rw [emitted_by_eq, settings_changed_emitted]
    simp only [List.append_assoc]
  · rw [emitted_by_eq]
    refine ⟨_, _, rfl, rfl, rfl, rfl, ?_, ?_⟩
    · intro e he
      split_ifs at he <;> simp at he <;> rcases he with rfl | rfl <;> simp
    · split_ifs <;> simp [List.countP_cons]

/-- Claim C7: the handler emits `rebind` exactly for the keys `pop`,
`show-history`, `sync-clipboard-to-primary` and `sync-primary-to-clipboard`: for
such a key the `rebind` emissions of the run are a single one whose detail is
the quark of the key, for any other key name there is none. For `pop` the run
emits `rebind` and then `changed`; for `max-history-size` it emits no
`rebind`. -/
theorem rebind_emitted_for_shortcut_keys_only (w : World) (key : String) :
    ((∃ e ∈ emitted_by w key, e.signal_id = Signal.REBIND) ↔ key ∈ rebind_keys) ∧
      (emitted_by w key).filter (fun e => e.signal_id = Signal.REBIND)
        = (if key ∈ rebind_keys then
            [⟨Signal.REBIND, g_quark_from_string key, GValue.string none,
              (g_paste_settings_settings_changed w key).self⟩]
          else []) ∧
      emitted_by w G_PASTE_POP_SETTING
        = [⟨Signal.REBIND, g_quark_from_string G_PASTE_POP_SETTING, GValue.string none,
              (g_paste_settings_settings_changed w G_PASTE_POP_SETTING).self⟩,
           ⟨Signal.CHANGED, g_quark_from_string G_PASTE_POP_SETTING,
              GValue.string (some G_PASTE_POP_SETTING),
              (g_paste_settings_settings_changed w G_PASTE_POP_SETTING).self⟩] ∧
      ∀ e ∈ emitted_by w G_PASTE_MAX_HISTORY_SIZE_SETTING, e.signal_id ≠ Signal.REBIND := by
  refine ⟨?_, ?_, ?_, ?_⟩
  · rw [emitted_by_eq]
    constructor
    · rintro ⟨e, he, hs⟩
      by_contra hk
      rw [if_neg hk] at he
      split_ifs at he <;> simp at he <;> rcases he with rfl | rfl <;> simp at hs
    · intro hk
      rw [if_pos hk]
      exact ⟨⟨Signal.REBIND, some key, GValue.string none,
        (g_paste_settings_settings_changed w key).self⟩, by simp, rfl⟩
  · rw [emitted_by_eq]
    split_ifs <;> simp [List.filter_cons, g_quark_from_string]
  · rw [emitted_by_eq]
    simp [rebind_keys, g_quark_from_string]
  · rw [emitted_by_eq]
    simp [rebind_keys]

/-- Claim C8: on an object that holds its store, the handler emits `track`
exactly for the key `track-changes`: the `track` emissions of that run are a
single one, with detail `0` and with the store's current value of
`track-changes` as parameter, which is also what the getter returns afterwards;
for any other key name there is none. -/
theorem track_emitted_for_track_changes_only (w : World) (key : String)
    (hlive : w.self.priv.settings = some ()) :
    ((∃ e ∈ emitted_by w key, e.signal_id = Signal.TRACK)
        ↔ key = G_PASTE_TRACK_CHANGES_SETTING) ∧
      (emitted_by w key).filter (fun e => e.signal_id = Signal.TRACK)
        = (if key = G_PASTE_TRACK_CHANGES_SETTING then
            [⟨Signal.TRACK, none,
              GValue.boolean (w.dconf.booleans G_PASTE_TRACK_CHANGES_SETTING),
              (g_paste_settings_settings_changed w key).self⟩]
          else []) ∧
      g_paste_settings_get_track_changes
          (g_paste_settings_settings_changed w G_PASTE_TRACK_CHANGES_SETTING).self
        = w.dconf.booleans G_PASTE_TRACK_CHANGES_SETTING := by
  have hget := settings_changed_get Key.track_changes w hlive
  simp only [Key.name, g_paste_settings_get, store_value, g_settings_get_boolean] at hget
  refine ⟨?_, ?_, hget⟩
  · rw [emitted_by_eq]
    constructor
    · rintro ⟨e, he, hs⟩
      by_contra hk
      rw [if_neg hk] at he
      split_ifs at he <;> simp at he <;> rcases he with rfl | rfl <;> simp at hs
    · intro hk
      rw [if_pos hk]
      exact ⟨⟨Signal.TRACK, none,
        GValue.boolean (g_paste_settings_settings_changed w key).self.priv.track_changes,
        (g_paste_settings_settings_changed w key).self⟩, by simp, rfl⟩
  · rw [emitted_by_eq]
    by_cases hk : key = G_PASTE_TRACK_CHANGES_SETTING
    · subst hk
      simp only [g_paste_settings_get_track_changes,
        g_paste_settings_get_instance_private] at hget
      rw [hget]
      simp [rebind_keys, List.filter_cons]
    · rw [if_neg hk, if_neg hk]
      split_ifs <;> simp [List.filter_cons]

/-- Witness of C8: the store says `track-changes` is `TRUE` while the cache still
says `FALSE`; the run for `track-changes` emits `track (TRUE)`. -/
theorem track_emitted_for_track_changes_only_witness :
    world1.self.priv.settings = some () ∧
      g_paste_settings_get_track_changes world1.self = false ∧
      (emitted_by world1 G_PASTE_TRACK_CHANGES_SETTING).filter
          (fun e => e.signal_id = Signal.TRACK)
        = [⟨Signal.TRACK, none, GValue.boolean true,
            (g_paste_settings_settings_changed world1 G_PASTE_TRACK_CHANGES_SETTING).self⟩] :=
  ⟨by decide, by decide,
    (track_emitted_for_track_changes_only world1 G_PASTE_TRACK_CHANGES_SETTING
      (by decide)).2.1⟩

/-- Claim C9, as stated, fails: `no-such-key` is not a recognized key, and the
handler run for it on the freshly constructed object emits an event. -/
theorem unrecognized_key_emits_changed :
    "no-such-key" ∉ recognized_keys ∧ emitted_by world0 "no-such-key" ≠ [] := by
  constructor
  · decide
  · rw [emitted_by_eq]
    simp

/-- Claim C9, amended: for every key name that is not one of the eighteen
recognized keys, the handler leaves the instance (every cached value) and the
store unchanged and emits exactly one event, the forwarded `changed`, whose
detail is the quark of the name and whose parameter is the name; it emits no
`rebind` and no `track`. -/
theorem unrecognized_key_only_forwarded (w : World) (key : String)
    (h : key ∉ recognized_keys) :
    (g_paste_settings_settings_changed w key).self = w.self ∧
      (g_paste_settings_settings_changed w key).dconf = w.dconf ∧
      (g_paste_settings_settings_changed w key).emitted = w.emitted ++ emitted_by w key ∧
      emitted_by w key
        = [⟨Signal.CHANGED, g_quark_from_string key, GValue.string (some key), w.self⟩] := by
  have hby : emitted_by w key
      = [⟨Signal.CHANGED, g_quark_from_string key, GValue.string (some key), w.self⟩] := by
    unfold emitted_by
    rw [settings_changed_unrecognized w key h]
    simp [g_quark_from_string]
  refine ⟨?_, ?_, ?_, hby⟩
  · rw [settings_changed_unrecognized w key h]
  · rw [settings_changed_unrecognized w key h]
  · rw [hby, settings_changed_unrecognized w key h]
    rfl

/-- Witness of the amended C9: the key name `no-such-key` on the freshly
constructed object. -/
theorem unrecognized_key_only_forwarded_witness :
    "no-such-key" ∉ recognized_keys ∧
      emitted_by world0 "no-such-key"
        = [⟨Signal.CHANGED, g_quark_from_string "no-such-key",
            GValue.string (some "no-such-key"), world0.self⟩] :=
  ⟨by decide, (unrecognized_key_only_forwarded world0 "no-such-key" (by decide)).2.2.2⟩

/-- Claim C10 is broken by the code at `set (pop, get (pop))` followed by the
notification for `pop`. In `world3` the object holds its store and the getter of
`pop` returns `<Ctrl><Alt>H`. The setter called with the getter's pointer emits
nothing, but it copies and writes from freed memory: when that memory holds
`freed_bytes` the store refuses the write, and the handler re-reads the `x` the
store had; when it holds the empty string (`world2`) the store takes it, and the
handler re-reads the empty string. In both runs the instance seen by the
subscribers of `rebind` and `changed`, and the getter afterwards, do not have the
value. With the same text passed from the caller's own memory they do. -/
theorem set_cached_pointer_breaks_event_completeness :
    world3.self.priv.settings = some () ∧
      g_paste_settings_get_pop world3.self = some ctrl_alt_h ∧
      (g_paste_settings_set_pop world3 (CStrPtr.cached 0 freed_bytes)).emitted
        = world3.emitted ∧
      (emitted_by (g_paste_settings_set_pop world3 (CStrPtr.cached 0 freed_bytes))
          G_PASTE_POP_SETTING).map (fun e => (e.signal_id, g_paste_settings_get_pop e.sender))
        = [(Signal.REBIND, some [120]), (Signal.CHANGED, some [120])] ∧
      g_paste_settings_get_pop
          (g_paste_settings_settings_changed
            (g_paste_settings_set_pop world3 (CStrPtr.cached 0 freed_bytes))
            G_PASTE_POP_SETTING).self = some [120] ∧
      g_paste_settings_get_pop world2.self = some ctrl_alt_h ∧
      g_paste_settings_get_pop
          (g_paste_settings_settings_changed
            (g_paste_settings_set_pop world2 (CStrPtr.cached 0 []))
            G_PASTE_POP_SETTING).self = some [] ∧
      (emitted_by (g_paste_settings_set_pop world3 (CStrPtr.other ctrl_alt_h))
          G_PASTE_POP_SETTING).map (fun e => (e.signal_id, g_paste_settings_get_pop e.sender))
        = [(Signal.REBIND, some ctrl_alt_h), (Signal.CHANGED, some ctrl_alt_h)] ∧
      g_paste_settings_get_pop
          (g_paste_settings_settings_changed
            (g_paste_settings_set_pop world3 (CStrPtr.other ctrl_alt_h))
            G_PASTE_POP_SETTING).self = some ctrl_alt_h := by
  refine ⟨?_, ?_, ?_, ?_, ?_, ?_, ?_, ?_, ?_⟩ <;> decide

/-! ## Lemmas on construction -/

theorem init_get (k : Key) (dconf : GSettings) (self : GPasteSettings) :
    g_paste_settings_get k (g_paste_settings_init dconf self).self = store_value dconf k := by
  cases k <;> simp [g_paste_settings_init, g_paste_settings_get_instance_private]

theorem init_settings (dconf : GSettings) (self : GPasteSettings) :
    (g_paste_settings_init dconf self).self.priv.settings = some () := by
  simp [g_paste_settings_init, g_paste_settings_get_instance_private]

theorem init_dconf (dconf : GSettings) (self : GPasteSettings) :
    (g_paste_settings_init dconf self).dconf = (g_signal_connect dconf).1 := by
  simp [g_paste_settings_init]

theorem init_store_value (k : Key) (dconf : GSettings) (self : GPasteSettings) :
    store_value (g_paste_settings_init dconf self).dconf k = store_value dconf k := by
  rw [init_dconf]
  cases k <;> simp [g_signal_connect]

/-! ## Frame lemmas -/

theorem set_get_other (j k : Key) (hjk : j ≠ k) (w : World) (v : k.argtype) :
    g_paste_settings_get j (g_paste_settings_set k w v).self = g_paste_settings_get j w.self := by
  cases k <;> cases j <;> first
    | exact absurd rfl hjk
    | rfl
    | (simp only [g_paste_settings_set, g_paste_settings_set_history_name,
         g_paste_settings_set_pop, g_paste_settings_set_show_history,
         g_paste_settings_set_sync_clipboard_to_primary,
         g_paste_settings_set_sync_primary_to_clipboard]
       split
       · rfl
       · split <;> rfl)

theorem Key.name_injective (j k : Key) (h : j.name = k.name) : j = k := by
  cases j <;> cases k <;> first
    | rfl
    | (simp only [Key.name, G_PASTE_ELEMENT_SIZE_SETTING,
        G_PASTE_HISTORY_NAME_SETTING, G_PASTE_IMAGES_SUPPORT_SETTING,
        G_PASTE_MAX_DISPLAYED_HISTORY_SIZE_SETTING, G_PASTE_MAX_HISTORY_SIZE_SETTING,
        G_PASTE_MAX_MEMORY_USAGE_SETTING, G_PASTE_MAX_TEXT_ITEM_SIZE_SETTING,
        G_PASTE_MIN_TEXT_ITEM_SIZE_SETTING, G_PASTE_POP_SETTING,
        G_PASTE_PRIMARY_TO_HISTORY_SETTING, G_PASTE_SAVE_HISTORY_SETTING,
        G_PASTE_SHOW_HISTORY_SETTING, G_PASTE_SYNC_CLIPBOARD_TO_PRIMARY_SETTING,
        G_PASTE_SYNC_PRIMARY_TO_CLIPBOARD_SETTING, G_PASTE_SYNCHRONIZE_CLIPBOARDS_SETTING,
        G_PASTE_TRACK_CHANGES_SETTING, G_PASTE_TRACK_EXTENSION_STATE_SETTING,
        G_PASTE_TRIM_ITEMS_SETTING, String.reduceEq] at h)

theorem set_string_other (dconf : GSettings) (settings : Option Unit) (name key : String)
    (value : Option CStr) (hkey : key ≠ name) :
    (g_settings_set_string dconf settings name value).booleans key = dconf.booleans key ∧
      (g_settings_set_string dconf settings name value).uints key = dconf.uints key ∧
      (g_settings_set_string dconf settings name value).strings key = dconf.strings key := by
  unfold g_settings_set_string
  split
  · split
    · exact ⟨rfl, rfl, rfl⟩
    · exact ⟨rfl, rfl, if_neg hkey⟩
  · exact ⟨rfl, rfl, rfl⟩

theorem set_dconf_other (k : Key) (w : World) (v : k.argtype) (key : String)
    (hkey : key ≠ k.name) :
    (g_paste_settings_set k w v).dconf.booleans key = w.dconf.booleans key ∧
      (g_paste_settings_set k w v).dconf.uints key = w.dconf.uints key ∧
      (g_paste_settings_set k w v).dconf.strings key = w.dconf.strings key := by
  cases k <;> simp only [Key.name] at hkey
  all_goals first
    | (cases hl : w.self.priv.settings <;>
         simp [g_paste_settings_get_instance_private, hl, hkey]
       done)
    | (simp only [g_paste_settings_set, g_paste_settings_set_history_name,
         g_paste_settings_set_pop, g_paste_settings_set_show_history,
         g_paste_settings_set_sync_clipboard_to_primary,
         g_paste_settings_set_sync_primary_to_clipboard]
       split
       · exact ⟨rfl, rfl, rfl⟩
       · split
         · exact ⟨rfl, rfl, rfl⟩
         · exact set_string_other _ _ _ _ _ hkey)

theorem set_store_value_other (j k : Key) (hjk : j ≠ k) (w : World) (v : k.argtype) :
    store_value (g_paste_settings_set k w v).dconf j = store_value w.dconf j := by
  have hne : j.name ≠ k.name := fun h => hjk (Key.name_injective j k h)
  obtain ⟨hb, hu, hs⟩ := set_dconf_other k w v j.name hne
  cases j <;> simp only [store_value, g_settings_get_boolean, g_settings_get_uint,
    g_settings_get_string] <;> simp only [Key.name] at hb hu hs <;>
    first | exact hb | exact hu | exact congrArg some hs

theorem settings_changed_get_other (j k : Key) (hjk : j ≠ k) (w : World) :
    g_paste_settings_get j (g_paste_settings_settings_changed w k.name).self
      = g_paste_settings_get j w.self := by
  cases k <;>
    simp only [Key.name, g_paste_settings_settings_changed, G_PASTE_ELEMENT_SIZE_SETTING,
      G_PASTE_HISTORY_NAME_SETTING, G_PASTE_IMAGES_SUPPORT_SETTING,
      G_PASTE_MAX_DISPLAYED_HISTORY_SIZE_SETTING, G_PASTE_MAX_HISTORY_SIZE_SETTING,
      G_PASTE_MAX_MEMORY_USAGE_SETTING, G_PASTE_MAX_TEXT_ITEM_SIZE_SETTING,
      G_PASTE_MIN_TEXT_ITEM_SIZE_SETTING, G_PASTE_POP_SETTING,
      G_PASTE_PRIMARY_TO_HISTORY_SETTING, G_PASTE_SAVE_HISTORY_SETTING,
      G_PASTE_SHOW_HISTORY_SETTING, G_PASTE_SYNC_CLIPBOARD_TO_PRIMARY_SETTING,
      G_PASTE_SYNC_PRIMARY_TO_CLIPBOARD_SETTING, G_PASTE_SYNCHRONIZE_CLIPBOARDS_SETTING,
      G_PASTE_TRACK_CHANGES_SETTING, G_PASTE_TRACK_EXTENSION_STATE_SETTING,
      G_PASTE_TRIM_ITEMS_SETTING, String.reduceEq, if_false, if_true, g_signal_emit,
      g_paste_settings_rebind] <;>
    cases j <;> first
      | exact absurd rfl hjk
      | rfl

theorem settings_changed_settings (w : World) (key : String) :
    (g_paste_settings_settings_changed w key).self.priv.settings = w.self.priv.settings := by
  by_cases h : key ∈ recognized_keys
  · obtain ⟨k, rfl⟩ := (mem_recognized_keys key).1 h
    cases k <;>
      simp only [Key.name, g_paste_settings_settings_changed, G_PASTE_ELEMENT_SIZE_SETTING,
        G_PASTE_HISTORY_NAME_SETTING, G_PASTE_IMAGES_SUPPORT_SETTING,
        G_PASTE_MAX_DISPLAYED_HISTORY_SIZE_SETTING, G_PASTE_MAX_HISTORY_SIZE_SETTING,
        G_PASTE_MAX_MEMORY_USAGE_SETTING, G_PASTE_MAX_TEXT_ITEM_SIZE_SETTING,
        G_PASTE_MIN_TEXT_ITEM_SIZE_SETTING, G_PASTE_POP_SETTING,
        G_PASTE_PRIMARY_TO_HISTORY_SETTING, G_PASTE_SAVE_HISTORY_SETTING,
        G_PASTE_SHOW_HISTORY_SETTING, G_PASTE_SYNC_CLIPBOARD_TO_PRIMARY_SETTING,
        G_PASTE_SYNC_PRIMARY_TO_CLIPBOARD_SETTING, G_PASTE_SYNCHRONIZE_CLIPBOARDS_SETTING,
        G_PASTE_TRACK_CHANGES_SETTING, G_PASTE_TRACK_EXTENSION_STATE_SETTING,
        G_PASTE_TRIM_ITEMS_SETTING, String.reduceEq, if_false, if_true, g_signal_emit,
        g_paste_settings_rebind] <;> rfl
  · rw [settings_changed_unrecognized w key h]

theorem settings_changed_self_of_agree (k : Key) (w : World)
    (hlive : w.self.priv.settings = some ())
    (hk : g_paste_settings_get k w.self = store_value w.dconf k) :
    (g_paste_settings_settings_changed w k.name).self = w.self := by
  obtain ⟨dconf, ⟨priv⟩, emitted⟩ := w
  cases priv
  simp only at hlive
  subst hlive
  cases k <;>
    simp only [Key.name, g_paste_settings_settings_changed, G_PASTE_ELEMENT_SIZE_SETTING,
      G_PASTE_HISTORY_NAME_SETTING, G_PASTE_IMAGES_SUPPORT_SETTING,
      G_PASTE_MAX_DISPLAYED_HISTORY_SIZE_SETTING, G_PASTE_MAX_HISTORY_SIZE_SETTING,
      G_PASTE_MAX_MEMORY_USAGE_SETTING, G_PASTE_MAX_TEXT_ITEM_SIZE_SETTING,
      G_PASTE_MIN_TEXT_ITEM_SIZE_SETTING, G_PASTE_POP_SETTING,
      G_PASTE_PRIMARY_TO_HISTORY_SETTING, G_PASTE_SAVE_HISTORY_SETTING,
      G_PASTE_SHOW_HISTORY_SETTING, G_PASTE_SYNC_CLIPBOARD_TO_PRIMARY_SETTING,
      G_PASTE_SYNC_PRIMARY_TO_CLIPBOARD_SETTING, G_PASTE_SYNCHRONIZE_CLIPBOARDS_SETTING,
      G_PASTE_TRACK_CHANGES_SETTING, G_PASTE_TRACK_EXTENSION_STATE_SETTING,
      G_PASTE_TRIM_ITEMS_SETTING, String.reduceEq, if_false, if_true, g_signal_emit,
      g_paste_settings_rebind] <;>
    simp [g_paste_settings_get_instance_private] at hk ⊢ <;>
    exact hk.symm

theorem set_get_eq_store (k : Key) (w : World) (v : k.ctype)
    (hlive : w.self.priv.settings = some ())
    (hk : g_paste_settings_get k w.self = store_value w.dconf k) :
    g_paste_settings_get k (g_paste_settings_set k w (k.setting_type.arg v)).self
      = store_value (g_paste_settings_set k w (k.setting_type.arg v)).dconf k := by
  cases k
  all_goals first
    | (simp [g_paste_settings_get_instance_private, SettingType.arg, hlive]
       done)
    | (cases v with
       | none => simpa [g_paste_settings_get_instance_private, SettingType.arg] using hk
       | some str =>
         by_cases hs : g_utf8_validate str = false
         · simpa [hs, g_paste_settings_get_instance_private, SettingType.arg] using hk
         · simp [hs, g_paste_settings_get_instance_private, SettingType.arg, hlive])

/-! ## Construction -/

/-- Claim C11: for every store content and whatever the instance memory held
before, after `g_paste_settings_init` the getter of each of the eighteen keys
returns the store's value of the key, read with the key's type; the key table
has 6 unsigned, 5 text and 7 boolean keys; and over a store whose
`max-history-size` is 100 the getter of `max-history-size` returns 100. -/
theorem construction_populates_every_key (dconf : GSettings) (self : GPasteSettings)
    (k : Key) :
    g_paste_settings_get k (g_paste_settings_init dconf self).self = store_value dconf k ∧
      store_value (g_paste_settings_init dconf self).dconf k = store_value dconf k ∧
      k ∈ all_keys ∧
      (all_keys.filter (fun j => j.setting_type = SettingType.uint)).length = 6 ∧
      (all_keys.filter (fun j => j.setting_type = SettingType.string)).length = 5 ∧
      (all_keys.filter (fun j => j.setting_type = SettingType.boolean)).length = 7 ∧
      g_paste_settings_get_max_history_size (g_paste_settings_init dconf100 self).self
        = 100 := by
  refine ⟨init_get k dconf self, init_store_value k dconf self, ?_, by decide, by decide,
    by decide, ?_⟩
  · cases k <;> decide
  · exact init_get Key.max_history_size dconf100 self

/-! ## Lemmas on coherence, disposal and events -/

theorem set_coherent (k : Key) (w : World) (v : k.ctype)
    (hlive : w.self.priv.settings = some ()) (hcoh : coherent w) :
    coherent (g_paste_settings_set k w (k.setting_type.arg v)) := by
  intro j
  by_cases hjk : j = k
  · subst hjk
    exact set_get_eq_store j w v hlive (hcoh j)
  · rw [set_get_other j k hjk, set_store_value_other j k hjk]
    exact hcoh j

theorem settings_changed_coherent (w : World) (key : String)
    (hlive : w.self.priv.settings = some ()) (hcoh : coherent w) :
    coherent (g_paste_settings_settings_changed w key) := by
  intro j
  rw [settings_changed_dconf]
  by_cases h : key ∈ recognized_keys
  · obtain ⟨k, rfl⟩ := (mem_recognized_keys key).1 h
    by_cases hjk : j = k
    · subst hjk
      exact settings_changed_get j w hlive
    · rw [settings_changed_get_other j k hjk]
      exact hcoh j
  · rw [settings_changed_unrecognized w key h]
    exact hcoh j

theorem init_coherent (dconf : GSettings) (self : GPasteSettings) :
    coherent (g_paste_settings_init dconf self) := by
  intro k
  rw [init_get, init_store_value]

theorem reachable_live (w : World) (h : Reachable w) :
    w.self.priv.settings = some () := by
  induction h with
  | init dconf self => exact init_settings dconf self
  | set k v _ ih => rw [set_settings]; exact ih
  | notify key _ ih => rw [settings_changed_settings]; exact ih

/-! ## Coherence of cache and store -/

/-- Claim C12 is broken by the code at `set (pop, get (pop))`. The state `world2`
is reached by construction and one setter call, it holds its store and its cache
agrees with the store on all eighteen keys. The setter of `pop` called with the
getter's pointer copies from freed memory: the state it yields is reached by
construction and setter calls alone, yet its cached `pop` is `freed_bytes` while
the store, which refuses these bytes, still has `<Ctrl><Alt>H`, so the cache no
longer agrees with the store. With the same text passed from the caller's own
memory the agreement is kept. -/
theorem set_cached_pointer_breaks_coherence :
    Reachable world2 ∧ world2.self.priv.settings = some () ∧ coherent world2 ∧
      Reachable (g_paste_settings_set Key.pop world2 (CStrPtr.cached 0 freed_bytes)) ∧
      g_paste_settings_get Key.pop
          (g_paste_settings_set Key.pop world2 (CStrPtr.cached 0 freed_bytes)).self
        = some freed_bytes ∧
      store_value (g_paste_settings_set Key.pop world2 (CStrPtr.cached 0 freed_bytes)).dconf
          Key.pop = some ctrl_alt_h ∧
      ¬ coherent (g_paste_settings_set Key.pop world2 (CStrPtr.cached 0 freed_bytes)) ∧
      coherent (g_paste_settings_set Key.pop world2 (CStrPtr.other ctrl_alt_h)) := by
  have hreach : Reachable world2 :=
    Reachable.set Key.pop (CStrPtr.other ctrl_alt_h) (Reachable.init dconf0 self0)
  have hcoh : coherent world2 :=
    set_coherent Key.pop world0 (some ctrl_alt_h) (by decide) (init_coherent dconf0 self0)
  refine ⟨hreach, by decide, hcoh, Reachable.set Key.pop _ hreach, by decide, by decide,
    ?_, set_coherent Key.pop world2 (some ctrl_alt_h) (by decide) hcoh⟩
  intro h
  exact absurd (h Key.pop) (by decide)

theorem dispose_of_cleared (w : World) (h : w.self.priv.settings = none) :
    g_paste_settings_dispose w = w := by
  simp [g_paste_settings_dispose, g_paste_settings_get_instance_private, h]

theorem dispose_settings (w : World) :
    (g_paste_settings_dispose w).self.priv.settings = none := by
  cases h : w.self.priv.settings with
  | none => rw [dispose_of_cleared w h, h]
  | some u => simp [g_paste_settings_dispose, g_paste_settings_get_instance_private, h]

theorem dispose_idempotent (w : World) :
    g_paste_settings_dispose (g_paste_settings_dispose w) = g_paste_settings_dispose w :=
  dispose_of_cleared _ (dispose_settings w)

theorem dispose_iterate (w : World) (n : Nat) :
    Nat.iterate g_paste_settings_dispose (n + 1) w = g_paste_settings_dispose w := by
  induction n with
  | zero => rfl
  | succ m ih =>
    rw [Function.iterate_succ_apply', ih, dispose_idempotent]

theorem dispose_dconf (w : World) (hlive : w.self.priv.settings = some ()) :
    (g_paste_settings_dispose w).dconf
      = g_signal_handler_disconnect w.dconf w.self.priv.changed_signal := by
  simp [g_paste_settings_dispose, g_paste_settings_get_instance_private, hlive]

theorem init_changed_signal (dconf : GSettings) (self : GPasteSettings) :
    (g_paste_settings_init dconf self).self.priv.changed_signal = (g_signal_connect dconf).2 := by
  simp [g_paste_settings_init]

/-! ## Disposal -/

/-- Claim C13: construction leaves the object holding its store with its handler
connected; on an object that holds its store the first dispose disconnects the
handler `changed_signal` once and clears the store pointer; a second dispose
disconnects nothing and returns the state it was given, so that dispose is
idempotent, and any number `n ≥ 1` of disposes yields the state of the first one,
with exactly one disconnect more than before. -/
theorem dispose_releases_subscription_once (w : World)
    (hlive : w.self.priv.settings = some ()) (n : Nat) (hn : 1 ≤ n) :
    (∀ (dconf : GSettings) (self : GPasteSettings),
        (g_paste_settings_init dconf self).self.priv.settings = some () ∧
          (g_paste_settings_init dconf self).self.priv.changed_signal
            ∈ (g_paste_settings_init dconf self).dconf.handlers) ∧
      (g_paste_settings_dispose w).self.priv.settings = none ∧
      (g_paste_settings_dispose w).dconf.disconnected
        = w.dconf.disconnected ++ [w.self.priv.changed_signal] ∧
      w.self.priv.changed_signal ∉ (g_paste_settings_dispose w).dconf.handlers ∧
      (g_paste_settings_dispose (g_paste_settings_dispose w)).dconf.disconnected
        = (g_paste_settings_dispose w).dconf.disconnected ∧
      g_paste_settings_dispose (g_paste_settings_dispose w) = g_paste_settings_dispose w ∧
      Nat.iterate g_paste_settings_dispose n w = g_paste_settings_dispose w ∧
      (Nat.iterate g_paste_settings_dispose n w).dconf.disconnected.length
        = w.dconf.disconnected.length + 1 := by
  obtain ⟨m, rfl⟩ : ∃ m, n = m + 1 := ⟨n - 1, by omega⟩
  refine ⟨?_, dispose_settings w, ?_, ?_, ?_, dispose_idempotent w, dispose_iterate w m, ?_⟩
  · intro dconf self
    refine ⟨init_settings dconf self, ?_⟩
    rw [init_changed_signal, init_dconf]
    simp [g_signal_connect]
  · rw [dispose_dconf w hlive]
    rfl
  · rw [dispose_dconf w hlive]
    simp [g_signal_handler_disconnect]
  · rw [dispose_idempotent]
  · rw [dispose_iterate, dispose_dconf w hlive]
    simp [g_signal_handler_disconnect]

/-- Witness of C13: three disposes of the freshly constructed object. -/
theorem dispose_releases_subscription_once_witness :
    world0.self.priv.settings = some () ∧ 1 ≤ 3 ∧
      Nat.iterate g_paste_settings_dispose 3 world0 = g_paste_settings_dispose world0 ∧
      (Nat.iterate g_paste_settings_dispose 3 world0).dconf.disconnected.length
        = world0.dconf.disconnected.length + 1 :=
  ⟨by decide, by decide,
    (dispose_releases_subscription_once world0 (by decide) 3 (by decide)).2.2.2.2.2.2⟩

theorem emitted_by_events (w : World) (key : String)
    (hlive : w.self.priv.settings = some ()) :
    (emitted_by w key).map Emission.event =
      (if key ∈ rebind_keys then
          [(Signal.REBIND, g_quark_from_string key, GValue.string none)]
        else [])
        ++ (if key = G_PASTE_TRACK_CHANGES_SETTING then
              [(Signal.TRACK, none,
                GValue.boolean (w.dconf.booleans G_PASTE_TRACK_CHANGES_SETTING))]
            else [])
        ++ [(Signal.CHANGED, g_quark_from_string key, GValue.string (some key))] := by
  rw [emitted_by_eq]
  by_cases hk : key = G_PASTE_TRACK_CHANGES_SETTING
  · subst hk
    have hget := settings_changed_get Key.track_changes w hlive
    simp only [Key.name, g_paste_settings_get, store_value, g_settings_get_boolean,
      g_paste_settings_get_track_changes, g_paste_settings_get_instance_private] at hget
    rw [hget]
    simp [rebind_keys, Emission.event, g_quark_from_string]
  · rw [if_neg hk, if_neg hk]
    split_ifs <;> simp [Emission.event, g_quark_from_string]

/-! ## Events do not depend on the cache -/

/-- Claim C14: on objects that hold their store, the events (signal, detail,
parameter) that one run of the handler for a key delivers are the same in any
two states, provided that for `track-changes` the store has the same value of
`track-changes` in both; they are `rebind` for a shortcut key, `track` with the
store's value for `track-changes`, and `changed` in every case. A state whose
cached value of the key already equals the store's gets these events as well,
and the run leaves its cache as it was. -/
theorem events_do_not_depend_on_cache (k : Key) (w w' : World)
    (hlive : w.self.priv.settings = some ()) (hlive' : w'.self.priv.settings = some ())
    (hstore : k = Key.track_changes →
      w.dconf.booleans G_PASTE_TRACK_CHANGES_SETTING
        = w'.dconf.booleans G_PASTE_TRACK_CHANGES_SETTING) :
    (emitted_by w k.name).map Emission.event = (emitted_by w' k.name).map Emission.event ∧
      (emitted_by w k.name).map Emission.event =
        (if k.name ∈ rebind_keys then
            [(Signal.REBIND, g_quark_from_string k.name, GValue.string none)]
          else [])
          ++ (if k = Key.track_changes then
                [(Signal.TRACK, none,
                  GValue.boolean (w.dconf.booleans G_PASTE_TRACK_CHANGES_SETTING))]
              else [])
          ++ [(Signal.CHANGED, g_quark_from_string k.name, GValue.string (some k.name))] ∧
      (g_paste_settings_get k w.self = store_value w.dconf k →
        (g_paste_settings_settings_changed w k.name).self = w.self) := by
  have hiff : k.name = G_PASTE_TRACK_CHANGES_SETTING ↔ k = Key.track_changes :=
    ⟨fun h => Key.name_injective k Key.track_changes h, fun h => by rw [h]; rfl⟩
  refine ⟨?_, ?_, settings_changed_self_of_agree k w hlive⟩
  · rw [emitted_by_events w k.name hlive, emitted_by_events w' k.name hlive']
    by_cases hk : k = Key.track_changes
    · rw [hstore hk]
    · rw [if_neg (fun h => hk (hiff.1 h)), if_neg (fun h => hk (hiff.1 h))]
  · rw [emitted_by_events w k.name hlive]
    by_cases hk : k = Key.track_changes
    · rw [if_pos (hiff.2 hk), if_pos hk]
    · rw [if_neg (fun h => hk (hiff.1 h)), if_neg hk]

/-- Witness of C14: `world1`, whose cached `track-changes` is stale, and the
state after its notification was handled, whose cached `track-changes` is
current: a run for `track-changes` delivers the same events in both. -/
theorem events_do_not_depend_on_cache_witness :
    world1.self.priv.settings = some () ∧
      (g_paste_settings_settings_changed world1 G_PASTE_TRACK_CHANGES_SETTING).self.priv.settings
        = some () ∧
      g_paste_settings_get_track_changes world1.self
        ≠ g_paste_settings_get_track_changes
            (g_paste_settings_settings_changed world1 G_PASTE_TRACK_CHANGES_SETTING).self ∧
      (emitted_by world1 Key.track_changes.name).map Emission.event
        = (emitted_by
            (g_paste_settings_settings_changed world1 G_PASTE_TRACK_CHANGES_SETTING)
            Key.track_changes.name).map Emission.event :=
  ⟨by decide, by decide, by decide,
    (events_do_not_depend_on_cache Key.track_changes world1
      (g_paste_settings_settings_changed world1 G_PASTE_TRACK_CHANGES_SETTING)
      (by decide) (by decide) (fun _ => by decide)).1⟩

/-! ## Per-key frame -/

/-- Claim C15: for distinct keys `j` and `k`, the getter of `j` returns the same
before and after the setter of `k`, whatever the argument (for a text key also
a pointer into the buffer cached for `k`), and the same before and
after a run of the handler for `k`; the setter of `k` leaves the store's value of
`j` unchanged, and a run of the handler leaves the whole store unchanged. -/
theorem other_keys_are_untouched (j k : Key) (hjk : j ≠ k) (w : World) (v : k.argtype) :
    g_paste_settings_get j (g_paste_settings_set k w v).self = g_paste_settings_get j w.self ∧
      store_value (g_paste_settings_set k w v).dconf j = store_value w.dconf j ∧
      g_paste_settings_get j (g_paste_settings_settings_changed w k.name).self
        = g_paste_settings_get j w.self ∧
      (g_paste_settings_settings_changed w k.name).dconf = w.dconf :=
  ⟨set_get_other j k hjk w v, set_store_value_other j k hjk w v,
    settings_changed_get_other j k hjk w, settings_changed_dconf w k.name⟩

/-- Witness of C15: in `world1` the cached `max-history-size` is 0 while the
store says 100; after the notification for `track-changes` it is still 0, and the
store still says 100. -/
theorem other_keys_are_untouched_witness :
    Key.max_history_size ≠ Key.track_changes ∧
      g_paste_settings_get Key.max_history_size world1.self = (0 : Nat) ∧
      store_value world1.dconf Key.max_history_size = (100 : Nat) ∧
      g_paste_settings_get Key.max_history_size
          (g_paste_settings_settings_changed world1 Key.track_changes.name).self
        = g_paste_settings_get Key.max_history_size world1.self ∧
      (g_paste_settings_settings_changed world1 Key.track_changes.name).dconf = world1.dconf :=
  ⟨by decide, by decide, by decide,
    (other_keys_are_untouched Key.max_history_size Key.track_changes (by decide) world1
      true).2.2⟩

end GPaste
